import Mathlib

/-!
# thermo-temperature: capture state machine and transmission task

A shallow embedding of `src/src/lepton_task.c`, `src/src/send_task.c` and
`app_main` of `src/src/main.c`.

* The body of the `while (true)` loop of `lepton_task` is the function
  `lepton_task_step`; the loop itself is `lepton_task_loop`, which runs one
  iteration per element of a list of environment outcomes.
* Every call the C code makes to FreeRTOS, the GPIO driver, the VoSPI driver or
  the network stack is recorded, in program order, as an `Action`.
* `int` is 32 bits wide on the ESP32; the three arithmetic updates of the loop
  (`++vsync_count`, `sync_fail_count++`, `--reset_fail_count`) are taken in
  two's complement, see `wrapInt32`.
-/

namespace Thermo

/-! ## Constants -/

/-- States of `lepton_task` (`lepton_task.c`, lines 43-46). -/
def STATE_INIT : Int := 0

/-- Initialized and running. -/
def STATE_RUN : Int := 1

/-- Reset and re-init. -/
def STATE_RE_INIT : Int := 2

/-- Initialization or re-init failed. -/
def STATE_ERROR : Int := 3

/-- Number of consecutive VoSPI resynchronization attempts before attempting to
reset (`lepton_task.h`, line 31). -/
def LEP_SYNC_FAIL_FAULT_LIMIT : Int := 10

/-- Reset fail delay before attempting a re-init, in seconds (`lepton_task.h`,
line 34). -/
def LEP_RESET_FAIL_RETRY_SECS : Int := 60

/-- Task evaluation interval of `send_task` (`send_task.h`, line 29). -/
def RSP_TASK_SLEEP_MSEC : Nat := 20

/-- Notification bit for slot 0 (`send_task.h`, line 32). -/
def RSP_NOTIFY_LEP_FRAME_MASK_0 : Nat := 0x00000010

/-- Notification bit for slot 1 (`send_task.h`, line 33). -/
def RSP_NOTIFY_LEP_FRAME_MASK_1 : Nat := 0x00000020

/-- Pin of the frame-start line (`system_config.h`, line 33). -/
def LEP_VSYNC_IO : Nat := 4

/-- Pin of the hardware reset line (`system_config.h`, line 35). -/
def LEP_RESET_IO : Nat := 23

/-- Two's complement reading of a 32-bit `int` after an arithmetic update. -/
def wrapInt32 (x : Int) : Int := (x + 2147483648) % 4294967296 - 2147483648

/-- The macro `Notification(var, mask)` of `system_utilities.h`, line 36:
`((var & mask) == mask)`. -/
def Notification (var mask : Nat) : Bool := (var &&& mask) == mask

/-! ## Actions -/

/-- Severity of a log line (`ESP_LOGI` or `ESP_LOGE`). -/
inductive LogLevel where
  | info
  | error
deriving DecidableEq

/-- One externally visible call made by a task, in the order the C code makes
them. Slot arguments are the index into `lep_buffer`. -/
inductive Action where
  | gpio_set_direction (pin : Nat) (output : Bool)
  | gpio_set_level (pin : Nat) (level : Nat)
  | gpio_get_level (pin : Nat)
  | vTaskDelay (ms : Nat)
  | vTaskDelete
  | esp_log (level : LogLevel) (msg : String)
  | esp_timer_get_time
  | vospi_init
  | lepton_init
  | vospi_transfer_segment
  | xSemaphoreTake (slot : Int)
  | vospi_get_frame (slot : Int)
  | xSemaphoreGive (slot : Int)
  | xTaskNotify (mask : Nat)
  | xTaskNotifyWait
  | memcpy (slot : Int) (bytes : Nat)
  | inet_aton
  | socket (tcp : Bool)
  | connect (fd : Int)
  | getsockopt (fd : Int)
  | close (fd : Int)
  | http_get
  | send (fd : Int) (bytes : Nat)
deriving DecidableEq

/-! ## lepton_task -/

/-- The local variables of `lepton_task` (`lepton_task.c`, lines 69-73). -/
structure LepState where
  task_state : Int
  rsp_buf_index : Int
  vsync_count : Int
  sync_fail_count : Int
  reset_fail_count : Int
deriving DecidableEq

/-- What the environment answers during one iteration of the loop of
`lepton_task`: the result of `lepton_init()` (read in `Init` and `ReInit`), the
number of times `gpio_get_level(LEP_VSYNC_IO)` reads 0 before the line is
asserted, and the result of `vospi_transfer_segment` (both read in `Run`). An
iteration reads only the answers of the calls it makes. -/
structure LepInput where
  lepton_init : Bool
  vsync_low_polls : Nat
  vospi_transfer_segment : Bool
deriving DecidableEq

/-- Values of the locals at the declaration (`lepton_task.c`, lines 69-73). -/
def lepInitial : LepState :=
  { task_state := STATE_INIT, rsp_buf_index := 0, vsync_count := 0,
    sync_fail_count := 0, reset_fail_count := 0 }

/-- The spin on the frame-start line (`lepton_task.c`, lines 105-107), then the
time stamp and the call of `vospi_transfer_segment` (lines 108, 111). -/
def vsyncWait : Nat → List Action
  | 0 => [Action.gpio_get_level LEP_VSYNC_IO, Action.esp_timer_get_time,
          Action.vospi_transfer_segment]
  | k + 1 => Action.gpio_get_level LEP_VSYNC_IO :: Action.vTaskDelay 9 :: vsyncWait k

/-- One iteration of the `while (true)` loop of `lepton_task`
(`lepton_task.c`, lines 90-204): the new values of the locals and the calls
made, in order. -/
def lepton_task_step (s : LepState) (i : LepInput) : LepState × List Action :=
  if s.task_state = STATE_INIT then
    -- case STATE_INIT
    if i.lepton_init then
      ({ s with task_state := STATE_RUN }, [Action.lepton_init])
    else
      ({ s with task_state := STATE_ERROR,
                reset_fail_count := LEP_RESET_FAIL_RETRY_SECS },
       [Action.lepton_init,
        Action.esp_log LogLevel.error "Lepton CCI initialization failed"])
  else if s.task_state = STATE_RUN then
    -- case STATE_RUN
    if i.vospi_transfer_segment then
      -- Got image
      let handoff : List Action :=
        [Action.xSemaphoreTake s.rsp_buf_index,
         Action.vospi_get_frame s.rsp_buf_index,
         Action.xSemaphoreGive s.rsp_buf_index]
      if s.rsp_buf_index = 0 then
        ({ s with vsync_count := 0, rsp_buf_index := 1,
                  sync_fail_count := 0, reset_fail_count := 0 },
         vsyncWait i.vsync_low_polls ++ handoff
           ++ [Action.xTaskNotify RSP_NOTIFY_LEP_FRAME_MASK_0])
      else
        ({ s with vsync_count := 0, rsp_buf_index := 0,
                  sync_fail_count := 0, reset_fail_count := 0 },
         vsyncWait i.vsync_low_polls ++ handoff
           ++ [Action.xTaskNotify RSP_NOTIFY_LEP_FRAME_MASK_1])
    else
      -- if (++vsync_count == 36)
      if wrapInt32 (s.vsync_count + 1) = 36 then
        let pause : List Action :=
          [Action.esp_log LogLevel.info "Could not get lepton image",
           Action.vTaskDelay 185]
        -- if (sync_fail_count++ == LEP_SYNC_FAIL_FAULT_LIMIT)
        if s.sync_fail_count = LEP_SYNC_FAIL_FAULT_LIMIT then
          if s.reset_fail_count = 0 then
            ({ s with vsync_count := 0,
                      sync_fail_count := wrapInt32 (s.sync_fail_count + 1),
                      task_state := STATE_RE_INIT },
             vsyncWait i.vsync_low_polls ++ pause)
          else
            ({ s with vsync_count := 0,
                      sync_fail_count := wrapInt32 (s.sync_fail_count + 1),
                      task_state := STATE_ERROR,
                      reset_fail_count := LEP_RESET_FAIL_RETRY_SECS },
             vsyncWait i.vsync_low_polls ++ pause
               ++ [Action.esp_log LogLevel.error
                     "Could not sync to VoSPI after task reset"])
        else
          ({ s with vsync_count := 0,
                    sync_fail_count := wrapInt32 (s.sync_fail_count + 1) },
           vsyncWait i.vsync_low_polls ++ pause)
      else
        ({ s with vsync_count := wrapInt32 (s.vsync_count + 1) },
         vsyncWait i.vsync_low_polls)
  else if s.task_state = STATE_RE_INIT then
    -- case STATE_RE_INIT
    let reset : List Action :=
      [Action.esp_log LogLevel.info "Reset Lepton",
       Action.gpio_set_level LEP_RESET_IO 0,
       Action.vTaskDelay 10,
       Action.gpio_set_level LEP_RESET_IO 1,
       Action.vTaskDelay 1000,
       Action.lepton_init]
    if i.lepton_init then
      ({ s with task_state := STATE_RUN, reset_fail_count := 1 }, reset)
    else
      ({ s with task_state := STATE_ERROR,
                reset_fail_count := LEP_RESET_FAIL_RETRY_SECS },
       reset ++ [Action.esp_log LogLevel.error "Lepton CCI initialization failed"])
  else if s.task_state = STATE_ERROR then
    -- case STATE_ERROR: if (--reset_fail_count == 0)
    if wrapInt32 (s.reset_fail_count - 1) = 0 then
      ({ s with reset_fail_count := wrapInt32 (s.reset_fail_count - 1),
                task_state := STATE_RE_INIT },
       [Action.vTaskDelay 1000])
    else
      ({ s with reset_fail_count := wrapInt32 (s.reset_fail_count - 1) },
       [Action.vTaskDelay 1000])
  else
    -- default
    ({ s with task_state := STATE_RE_INIT }, [])

/-- The loop of `lepton_task` run for one iteration per outcome in the list,
from the locals `s`: the locals afterwards and all calls made. -/
def lepton_task_loop (s : LepState) : List LepInput → LepState × List Action
  | [] => (s, [])
  | i :: rest =>
    ((lepton_task_loop (lepton_task_step s i).1 rest).1,
     (lepton_task_step s i).2 ++ (lepton_task_loop (lepton_task_step s i).1 rest).2)

/-- The calls `lepton_task` makes before its loop (`lepton_task.c`,
lines 79-84). -/
def leptonPrologue : List Action :=
  [Action.gpio_set_direction LEP_VSYNC_IO false,
   Action.gpio_set_direction LEP_RESET_IO true,
   Action.gpio_set_level LEP_RESET_IO 1,
   Action.vospi_init]

/-- The function `lepton_task` (`lepton_task.c`, lines 67-206) observed for
`inputs.length` iterations of its loop. When `vospi_init` fails the task
deletes itself and the loop is never entered. -/
def lepton_task (vospi_init_ok : Bool) (inputs : List LepInput) :
    LepState × List Action :=
  if vospi_init_ok then
    ((lepton_task_loop lepInitial inputs).1,
     leptonPrologue ++ (lepton_task_loop lepInitial inputs).2)
  else
    (lepInitial,
     leptonPrologue ++
       [Action.esp_log LogLevel.error "Lepton VoSPI initialization failed",
        Action.vTaskDelete])

/-- The locals at the head of every iteration: `s` first, then the locals after
each iteration in turn. -/
def lepton_task_states (s : LepState) : List LepInput → List LepState
  | [] => [s]
  | i :: rest => s :: lepton_task_states (lepton_task_step s i).1 rest

/-! ## Observers on traces and state sequences -/

/-- The resynchronization pause `vTaskDelay(pdMS_TO_TICKS(185))`
(`lepton_task.c`, line 145). -/
def isResyncPause : Action → Bool
  | Action.vTaskDelay 185 => true
  | _ => false

/-- Number of resynchronization pauses in a trace. -/
def resyncPauses (tr : List Action) : Nat := tr.countP isResyncPause

/-- Number of iterations that enter `target` from another state. -/
def transitionsInto (target : Int) : List LepState → Nat
  | a :: b :: rest =>
    (if a.task_state ≠ target ∧ b.task_state = target then 1 else 0)
      + transitionsInto target (b :: rest)
  | _ => 0

/-- The slots written by `vospi_get_frame`, in order. -/
def framesWritten : List Action → List Int
  | [] => []
  | Action.vospi_get_frame n :: rest => n :: framesWritten rest
  | _ :: rest => framesWritten rest

/-- One step of the count of resynchronization pauses since the last
`vospi_get_frame`: a frame extraction restarts the count, a pause adds one. -/
def sinceFrameStep (n : Nat) (a : Action) : Nat :=
  match a with
  | Action.vospi_get_frame _ => 0
  | Action.vTaskDelay 185 => n + 1
  | _ => n

/-- Number of resynchronization pauses since the last `vospi_get_frame` (or
since the start of the trace when there is none), on top of `acc` pauses seen
before the trace. -/
def resyncFailuresSinceFrame (acc : Nat) (tr : List Action) : Nat :=
  tr.foldl sinceFrameStep acc

/-! ## send_task -/

/-- The pixels of one image, 16 bits each. -/
abbrev Image := List Nat

/-- The memory `send_task` works on: its file-scope variables (`send_task.c`,
lines 45-51) and the image arrays behind `lep_buffer[0].lep_bufferP` and
`lep_buffer[1].lep_bufferP`. -/
structure SendState where
  got_image_0 : Bool
  got_image_1 : Bool
  sockfd : Int
  send_img_buffer : Image
  lep_buffer_0 : Image
  lep_buffer_1 : Image
deriving DecidableEq

/-- What the network stack answers during one call of `send_response`: the
results of `inet_aton`, `socket`, `connect`, the value `getsockopt` leaves in
`err_code`, the result of `http_get` and the result of `send`. A call reads
only the answers of the calls it makes. -/
structure NetOutcome where
  inet_aton_ok : Bool
  socket_fd : Int
  connect_rc : Int
  so_error : Int
  http_get_err : Int
  send_rc : Int
deriving DecidableEq

/-- What the environment answers during one iteration of the loop of
`send_task`: `notify` is `none` when `xTaskNotifyWait` finds nothing pending
and `some v` when it returns the pending notification word `v` (and clears
it); `net` is read by `send_response`. -/
structure SendInput where
  notify : Option Nat
  net : NetOutcome
deriving DecidableEq

/-- The image array of `lep_buffer[n]`, for the two slots that exist. -/
def lepBufferAt (m : SendState) (n : Int) : Image :=
  if n = 0 then m.lep_buffer_0 else m.lep_buffer_1

/-- The function `handle_notifications` (`send_task.c`, lines 104-118). -/
def handle_notifications (m : SendState) (notify : Option Nat) :
    SendState × List Action :=
  match notify with
  | some notification_value =>
    ({ m with
        got_image_0 :=
          if Notification notification_value RSP_NOTIFY_LEP_FRAME_MASK_0 then true
          else m.got_image_0,
        got_image_1 :=
          if Notification notification_value RSP_NOTIFY_LEP_FRAME_MASK_1 then true
          else m.got_image_1 },
     [Action.xTaskNotifyWait])
  | none => (m, [Action.xTaskNotifyWait])

/-- The function `process_image` (`send_task.c`, lines 125-145): under the
mutex of slot `n`, the image of the slot is copied into `send_img_buffer`
(both arrays hold `LEP_NUM_PIXELS` words, so the `memcpy` of
`LEP_NUM_PIXELS*2` bytes copies the whole image); the result is
`LEP_NUM_PIXELS*2`. `LEP_NUM_PIXELS` comes from `vospi.h`. -/
def process_image (LEP_NUM_PIXELS : Nat) (m : SendState) (n : Int) :
    (SendState × Int) × List Action :=
  (({ m with send_img_buffer := lepBufferAt m n }, (LEP_NUM_PIXELS : Int) * 2),
   [Action.xSemaphoreTake n,
    Action.memcpy n (LEP_NUM_PIXELS * 2),
    Action.xSemaphoreGive n])

/-- The function `socket_connect` (`send_task.c`, lines 191-226), called with
`TCP_FLAG`: the new memory, the result (0 on success, 1 on failure) and the
calls made. -/
def socket_connect (m : SendState) (net : NetOutcome) :
    (SendState × Int) × List Action :=
  if ¬ net.inet_aton_ok then
    ((m, 1),
     [Action.inet_aton,
      Action.esp_log LogLevel.error "Network address wrong format"])
  else if net.socket_fd < 0 then
    (({ m with sockfd := net.socket_fd }, 1),
     [Action.inet_aton, Action.socket true,
      Action.esp_log LogLevel.error "Creating of socket failed: %s"])
  else if net.connect_rc ≠ 0 then
    (({ m with sockfd := net.socket_fd }, 1),
     [Action.inet_aton, Action.socket true, Action.connect net.socket_fd,
      Action.esp_log LogLevel.error "Cannot establish the connection"])
  else
    (({ m with sockfd := net.socket_fd }, 0),
     [Action.inet_aton, Action.socket true, Action.connect net.socket_fd,
      Action.esp_log LogLevel.error "Successfully connected to server"])

/-- The function `http_get` (`send_task.c`, lines 264-291): the result of
`esp_http_client_perform` and the calls made. -/
def http_get (net : NetOutcome) : Int × List Action :=
  if net.http_get_err = 0 then
    (net.http_get_err,
     [Action.http_get,
      Action.esp_log LogLevel.info "HTTP GET Status = %d, content_length = %d"])
  else
    (net.http_get_err,
     [Action.http_get,
      Action.esp_log LogLevel.error "HTTP GET request failed: %s"])

/-- The function `send_response` (`send_task.c`, lines 150-186) for a payload
of `rsp_length` bytes. -/
def send_response (m : SendState) (net : NetOutcome) (rsp_length : Nat) :
    SendState × List Action :=
  let c := socket_connect m net
  let m1 := c.1.1
  let t1 := c.2 ++ [Action.getsockopt m1.sockfd]
  if net.so_error ≠ 0 then
    (m1, t1 ++ [Action.close m1.sockfd])
  else if (http_get net).1 ≠ 0 then
    (m1, t1 ++ (http_get net).2)
  else if net.send_rc < 0 then
    (m1, t1 ++ (http_get net).2
       ++ [Action.send m1.sockfd rsp_length,
           Action.esp_log LogLevel.error "Error connect: %s"])
  else
    (m1, t1 ++ (http_get net).2
       ++ [Action.send m1.sockfd rsp_length,
           Action.close m1.sockfd,
           Action.esp_log LogLevel.error "Image sent to server"])

/-- One iteration of the `while (1)` loop of `send_task` (`send_task.c`,
lines 72-94). -/
def send_task_step (LEP_NUM_PIXELS : Nat) (m : SendState) (i : SendInput) :
    SendState × List Action :=
  let h := handle_notifications m i.notify
  let m1 := h.1
  if m1.got_image_0 || m1.got_image_1 then
    let p : (SendState × Int) × List Action :=
      if m1.got_image_0 then
        (({ (process_image LEP_NUM_PIXELS m1 0).1.1 with got_image_0 := false },
          (process_image LEP_NUM_PIXELS m1 0).1.2),
         (process_image LEP_NUM_PIXELS m1 0).2)
      else
        (({ (process_image LEP_NUM_PIXELS m1 1).1.1 with got_image_1 := false },
          (process_image LEP_NUM_PIXELS m1 1).1.2),
         (process_image LEP_NUM_PIXELS m1 1).2)
    let len := p.1.2
    if len ≠ 0 then
      let r := send_response p.1.1 i.net (LEP_NUM_PIXELS * 2)
      (r.1, h.2 ++ p.2 ++ r.2 ++ [Action.vTaskDelay RSP_TASK_SLEEP_MSEC])
    else
      (p.1.1, h.2 ++ p.2 ++ [Action.vTaskDelay RSP_TASK_SLEEP_MSEC])
  else
    (m1, h.2 ++ [Action.vTaskDelay RSP_TASK_SLEEP_MSEC])

/-- The loop of `send_task` run for one iteration per outcome in the list. -/
def send_task_loop (LEP_NUM_PIXELS : Nat) (m : SendState) :
    List SendInput → SendState × List Action
  | [] => (m, [])
  | i :: rest =>
    ((send_task_loop LEP_NUM_PIXELS (send_task_step LEP_NUM_PIXELS m i).1 rest).1,
     (send_task_step LEP_NUM_PIXELS m i).2
       ++ (send_task_loop LEP_NUM_PIXELS (send_task_step LEP_NUM_PIXELS m i).1 rest).2)

/-- The slots copied by `memcpy` in `process_image`, in order. -/
def slotsCopied : List Action → List Int
  | [] => []
  | Action.memcpy n _ :: rest => n :: slotsCopied rest
  | _ :: rest => slotsCopied rest

/-! ## Concrete inputs used in the scenarios -/

/-- In `Run` with all counters zero, slot 0 next. -/
def lepRunZero : LepState :=
  { task_state := STATE_RUN, rsp_buf_index := 0, vsync_count := 0,
    sync_fail_count := 0, reset_fail_count := 0 }

/-- An incomplete segment attempt (frame-start line asserted at the first poll);
`lepton_init` would succeed. -/
def incompleteAttempt : LepInput :=
  { lepton_init := true, vsync_low_polls := 0, vospi_transfer_segment := false }

/-- A segment attempt that completes a frame; `lepton_init` would succeed. -/
def completedFrame : LepInput :=
  { lepton_init := true, vsync_low_polls := 0, vospi_transfer_segment := true }

/-- A memory of `send_task` with nothing recorded yet, two-pixel images. -/
def sendIdle : SendState :=
  { got_image_0 := false, got_image_1 := false, sockfd := -1,
    send_img_buffer := [0, 0], lep_buffer_0 := [11, 12], lep_buffer_1 := [21, 22] }

/-- A delivery in which every network call succeeds, on descriptor 5. -/
def netAllOk : NetOutcome :=
  { inet_aton_ok := true, socket_fd := 5, connect_rc := 0, so_error := 0,
    http_get_err := 0, send_rc := 4 }

/-- Both slot-ready flags pending at the poll. -/
def bothPending : SendInput := { notify := some 0x30, net := netAllOk }

/-! ## Hand-off and guard discipline on traces -/

/-- Where a trace stands in the hand-off of one frame: nothing in progress,
mutex of `slot` taken, frame written into `slot`, mutex of `slot` given back;
`broken` once a call came out of this order. -/
inductive HandoffPhase where
  | idle
  | taken (slot : Int)
  | written (slot : Int)
  | given (slot : Int)
  | broken
deriving DecidableEq

/-- One call seen by the hand-off check. A hand-off is exactly
`xSemaphoreTake i`, `vospi_get_frame i`, `xSemaphoreGive i`, `xTaskNotify` with
the flag of slot `i`, with no other call in between; outside a hand-off any
call but these four kinds may occur. -/
def handoffStep (p : HandoffPhase) (a : Action) : HandoffPhase :=
  match p, a with
  | HandoffPhase.idle, Action.xSemaphoreTake n => HandoffPhase.taken n
  | HandoffPhase.idle, Action.vospi_get_frame _ => HandoffPhase.broken
  | HandoffPhase.idle, Action.xSemaphoreGive _ => HandoffPhase.broken
  | HandoffPhase.idle, Action.xTaskNotify _ => HandoffPhase.broken
  | HandoffPhase.idle, _ => HandoffPhase.idle
  | HandoffPhase.taken n, Action.vospi_get_frame k =>
    if k = n then HandoffPhase.written n else HandoffPhase.broken
  | HandoffPhase.written n, Action.xSemaphoreGive k =>
    if k = n then HandoffPhase.given n else HandoffPhase.broken
  | HandoffPhase.given n, Action.xTaskNotify mask =>
    if (n = 0 ∧ mask = RSP_NOTIFY_LEP_FRAME_MASK_0)
        ∨ (n = 1 ∧ mask = RSP_NOTIFY_LEP_FRAME_MASK_1) then HandoffPhase.idle
    else HandoffPhase.broken
  | _, _ => HandoffPhase.broken

/-- The hand-off check run over a trace, from `p`. -/
def handoffCheck (p : HandoffPhase) (tr : List Action) : HandoffPhase :=
  tr.foldl handoffStep p

/-- Whether a task holds a slot mutex: none, the mutex of `slot`, or `violated`
once the guard discipline was broken. -/
inductive GuardState where
  | free
  | holding (slot : Int)
  | violated
deriving DecidableEq

/-- One call seen by the guard check. A slot is written (`vospi_get_frame`)
or read (`memcpy`) only while its own mutex is held; a mutex is taken only
when none is held and given only by its holder; and while a mutex is held the
task makes no other call at all (no notify, sleep, GPIO read or network
call). -/
def guardStep (g : GuardState) (a : Action) : GuardState :=
  match g, a with
  | GuardState.free, Action.xSemaphoreTake n => GuardState.holding n
  | GuardState.free, Action.xSemaphoreGive _ => GuardState.violated
  | GuardState.free, Action.vospi_get_frame _ => GuardState.violated
  | GuardState.free, Action.memcpy _ _ => GuardState.violated
  | GuardState.free, _ => GuardState.free
  | GuardState.holding n, Action.vospi_get_frame k =>
    if k = n then GuardState.holding n else GuardState.violated
  | GuardState.holding n, Action.memcpy k _ =>
    if k = n then GuardState.holding n else GuardState.violated
  | GuardState.holding n, Action.xSemaphoreGive k =>
    if k = n then GuardState.free else GuardState.violated
  | _, _ => GuardState.violated

/-- The guard check run over a trace, from `g`. -/
def guardCheck (g : GuardState) (tr : List Action) : GuardState :=
  tr.foldl guardStep g

/-- Whether `socket_connect` opened a socket: `inet_aton` accepted the address
and `socket` returned a descriptor (`send_task.c`, lines 198-208). -/
def socketOpened (net : NetOutcome) : Bool :=
  net.inet_aton_ok && decide (0 ≤ net.socket_fd)

/-- Number of calls `close(fd)` in a trace. -/
def closesOf (fd : Int) (tr : List Action) : Nat :=
  tr.countP (fun a => match a with
    | Action.close k => decide (k = fd)
    | _ => false)

/-- Number of calls of `send_response` in a trace of `send_task`: every path
through `send_response` calls `getsockopt` once, and nothing else does. -/
def deliveryAttempts (tr : List Action) : Nat :=
  tr.countP (fun a => match a with
    | Action.getsockopt _ => true
    | _ => false)

/-- A delivery in which the pre-payload `http_get` fails after a successful
connect on descriptor 5. -/
def netHttpGetFails : NetOutcome :=
  { inet_aton_ok := true, socket_fd := 5, connect_rc := 0, so_error := 0,
    http_get_err := -1, send_rc := 4 }

/-- A delivery in which the payload `send` fails after a successful connect on
descriptor 5. -/
def netSendFails : NetOutcome :=
  { inet_aton_ok := true, socket_fd := 5, connect_rc := 0, so_error := 0,
    http_get_err := 0, send_rc := -1 }

/-- A delivery in which the connect fails and `getsockopt` reports the error. -/
def netConnectFails : NetOutcome :=
  { inet_aton_ok := true, socket_fd := 5, connect_rc := -1, so_error := 113,
    http_get_err := 0, send_rc := 4 }

/-! ## app_main -/

/-- The two task entry points handed to `xTaskCreatePinnedToCore`. -/
inductive TaskEntry where
  | send_task
  | lepton_task
deriving DecidableEq

/-- One call made by `app_main` (`main.c`, lines 39-69). -/
inductive MainCall where
  | esp_log (level : LogLevel) (msg : String)
  | lepton_io_init
  | wifi_init
  | lepton_buffer_init
  | vTaskDelay (ms : Nat)
  | xTaskCreatePinnedToCore (task : TaskEntry) (stack : Nat) (priority : Nat) (core : Nat)
deriving DecidableEq

/-- The idle spin `while (1) {vTaskDelay(pdMS_TO_TICKS(100));}` observed for
`spins` rounds. -/
def idleSpin (spins : Nat) : List MainCall :=
  List.replicate spins (MainCall.vTaskDelay 100)

/-- The function `app_main` (`main.c`, lines 39-69), given the results of
`lepton_io_init`, `wifi_init` and `lepton_buffer_init`: the calls made, and
whether `app_main` has returned. When an initialization fails `app_main`
never returns; its idle spin is observed for `spins` rounds. -/
def app_main (io_ok wifi_ok buffer_ok : Bool) (spins : Nat) : List MainCall × Bool :=
  if ¬ io_ok then
    ([MainCall.esp_log LogLevel.info "ESP32 startup",
      MainCall.lepton_io_init,
      MainCall.esp_log LogLevel.error "ESP32 init failed"] ++ idleSpin spins, false)
  else if ¬ wifi_ok then
    ([MainCall.esp_log LogLevel.info "ESP32 startup",
      MainCall.lepton_io_init,
      MainCall.wifi_init,
      MainCall.esp_log LogLevel.error "WiFi initialization failed"] ++ idleSpin spins, false)
  else if ¬ buffer_ok then
    ([MainCall.esp_log LogLevel.info "ESP32 startup",
      MainCall.lepton_io_init,
      MainCall.wifi_init,
      MainCall.lepton_buffer_init,
      MainCall.esp_log LogLevel.error "ESP32 memory allocate failed"] ++ idleSpin spins, false)
  else
    ([MainCall.esp_log LogLevel.info "ESP32 startup",
      MainCall.lepton_io_init,
      MainCall.wifi_init,
      MainCall.lepton_buffer_init,
      MainCall.vTaskDelay 1000,
      MainCall.xTaskCreatePinnedToCore TaskEntry.send_task 3072 2 0,
      MainCall.xTaskCreatePinnedToCore TaskEntry.lepton_task 2048 19 1], true)

/-- The tasks created by a trace of `app_main`, in order. -/
def tasksCreated : List MainCall → List TaskEntry
  | [] => []
  | MainCall.xTaskCreatePinnedToCore t _ _ _ :: rest => t :: tasksCreated rest
  | _ :: rest => tasksCreated rest

/-- The initialization steps run by a trace of `app_main`, in order. -/
def initSteps : List MainCall → List MainCall
  | [] => []
  | MainCall.lepton_io_init :: rest => MainCall.lepton_io_init :: initSteps rest
  | MainCall.wifi_init :: rest => MainCall.wifi_init :: initSteps rest
  | MainCall.lepton_buffer_init :: rest => MainCall.lepton_buffer_init :: initSteps rest
  | _ :: rest => initSteps rest

/-! ## Auxiliary lemmas -/

/-- A value in the range of `int` is its own 32-bit reading. -/
theorem wrapInt32_of_range (x : Int) (h1 : -2147483648 ≤ x) (h2 : x < 2147483648) :
    wrapInt32 x = x := by
  unfold wrapInt32
  omega

/-- Running the loop over `a ++ b` is running it over `a`, then over `b`. -/
theorem lepton_task_loop_append (a b : List LepInput) :
    ∀ s : LepState, lepton_task_loop s (a ++ b) =
      ((lepton_task_loop (lepton_task_loop s a).1 b).1,
       (lepton_task_loop s a).2 ++ (lepton_task_loop (lepton_task_loop s a).1 b).2) := by
  induction a with
  | nil => intro s; simp [lepton_task_loop]
  | cons i rest ih => intro s; simp [lepton_task_loop, ih]

/-- The state sequence starts with the start state. -/
theorem lepton_task_states_cons (s : LepState) (l : List LepInput) :
    ∃ tl, lepton_task_states s l = s :: tl := by
  cases l with
  | nil => exact ⟨[], rfl⟩
  | cons i rest => exact ⟨_, rfl⟩

/-- Transitions counted over a run: the first iteration, then the rest. -/
theorem transitionsInto_states_cons (t : Int) (s : LepState) (i : LepInput)
    (rest : List LepInput) :
    transitionsInto t (lepton_task_states s (i :: rest)) =
      (if s.task_state ≠ t ∧ (lepton_task_step s i).1.task_state = t then 1 else 0)
        + transitionsInto t (lepton_task_states (lepton_task_step s i).1 rest) := by
  obtain ⟨tl, h⟩ := lepton_task_states_cons (lepton_task_step s i).1 rest
  simp only [lepton_task_states, h, transitionsInto]

/-- Transitions counted over `a ++ b`: those over `a` plus those over `b`. -/
theorem transitionsInto_states_append (t : Int) (a b : List LepInput) :
    ∀ s : LepState, transitionsInto t (lepton_task_states s (a ++ b)) =
      transitionsInto t (lepton_task_states s a)
        + transitionsInto t (lepton_task_states (lepton_task_loop s a).1 b) := by
  induction a with
  | nil => intro s; simp [lepton_task_states, lepton_task_loop, transitionsInto]
  | cons i rest ih =>
    intro s
    rw [List.cons_append, transitionsInto_states_cons, transitionsInto_states_cons, ih]
    simp only [lepton_task_loop]
    omega

/-- Pauses of a concatenated trace. -/
theorem resyncPauses_append (a b : List Action) :
    resyncPauses (a ++ b) = resyncPauses a + resyncPauses b := by
  simp [resyncPauses, List.countP_append]

/-- The spin on the frame-start line sleeps 9 ms at a time, never 185 ms. -/
theorem resyncPauses_vsyncWait (k : Nat) : resyncPauses (vsyncWait k) = 0 := by
  induction k with
  | zero => rfl
  | succ k ih =>
    simp only [resyncPauses] at ih
    simp [vsyncWait, resyncPauses, List.countP_cons, isResyncPause, ih]

/-- Frames written by a concatenated trace. -/
theorem framesWritten_append (a b : List Action) :
    framesWritten (a ++ b) = framesWritten a ++ framesWritten b := by
  induction a with
  | nil => rfl
  | cons x rest ih => cases x <;> simp [framesWritten, ih]

/-- The spin on the frame-start line writes no frame. -/
theorem framesWritten_vsyncWait (k : Nat) : framesWritten (vsyncWait k) = [] := by
  induction k with
  | zero => rfl
  | succ k ih => simp [vsyncWait, framesWritten, ih]

/-- The count since the last frame over a concatenated trace. -/
theorem resyncFailuresSinceFrame_append (acc : Nat) (a b : List Action) :
    resyncFailuresSinceFrame acc (a ++ b) =
      resyncFailuresSinceFrame (resyncFailuresSinceFrame acc a) b := by
  simp [resyncFailuresSinceFrame, List.foldl_append]

/-- The spin on the frame-start line leaves the count since the last frame alone. -/
theorem resyncFailuresSinceFrame_vsyncWait (acc k : Nat) :
    resyncFailuresSinceFrame acc (vsyncWait k) = acc := by
  induction k with
  | zero => rfl
  | succ k ih =>
    simp only [resyncFailuresSinceFrame] at ih
    simp [vsyncWait, resyncFailuresSinceFrame, List.foldl_cons, sinceFrameStep, ih]

/-- One incomplete attempt in `Run` below the escalation point. -/
theorem step_run_incomplete (s : LepState) (i : LepInput)
    (hs : s.task_state = STATE_RUN) (hi : i.vospi_transfer_segment = false)
    (hv0 : 0 ≤ s.vsync_count) (hv1 : s.vsync_count < 36)
    (hc0 : 0 ≤ s.sync_fail_count)
    (hb : 36 * s.sync_fail_count + s.vsync_count + 1 ≤ 395) :
    (lepton_task_step s i).1.task_state = STATE_RUN ∧
    (lepton_task_step s i).1.rsp_buf_index = s.rsp_buf_index ∧
    (lepton_task_step s i).1.reset_fail_count = s.reset_fail_count ∧
    0 ≤ (lepton_task_step s i).1.vsync_count ∧
    (lepton_task_step s i).1.vsync_count < 36 ∧
    36 * (lepton_task_step s i).1.sync_fail_count + (lepton_task_step s i).1.vsync_count
      = 36 * s.sync_fail_count + s.vsync_count + 1 ∧
    s.sync_fail_count + (resyncPauses (lepton_task_step s i).2 : Int)
      = (lepton_task_step s i).1.sync_fail_count ∧
    framesWritten (lepton_task_step s i).2 = [] := by
  by_cases h36 : s.vsync_count + 1 = 36
  · have hw : wrapInt32 (s.vsync_count + 1) = 36 := by
      rw [wrapInt32_of_range _ (by omega) (by omega)]; exact h36
    have hc : ¬ s.sync_fail_count = LEP_SYNC_FAIL_FAULT_LIMIT := by
      simp only [LEP_SYNC_FAIL_FAULT_LIMIT]; omega
    have hw2 : wrapInt32 (s.sync_fail_count + 1) = s.sync_fail_count + 1 :=
      wrapInt32_of_range _ (by omega) (by omega)
    simp [lepton_task_step, hs, hi, hw, hc, hw2, STATE_INIT, STATE_RUN,
      resyncPauses_append, resyncPauses_vsyncWait, framesWritten_append,
      framesWritten_vsyncWait, framesWritten]
    refine ⟨by omega, ?_⟩
    simp [resyncPauses, isResyncPause]
  · have hw : wrapInt32 (s.vsync_count + 1) = s.vsync_count + 1 :=
      wrapInt32_of_range _ (by omega) (by omega)
    have hw' : ¬ s.vsync_count + 1 = 36 := h36
    simp [lepton_task_step, hs, hi, hw, hw', STATE_INIT, STATE_RUN,
      resyncPauses_vsyncWait, framesWritten_vsyncWait]
    omega

/-- A run of incomplete attempts in `Run` that stays below the escalation
point: the potential `36 * sync_fail_count + vsync_count` grows by one per
attempt, nothing else changes, and every resynchronization failure is one
pause. -/
theorem run_incompletes (inputs : List LepInput) :
    ∀ s : LepState, s.task_state = STATE_RUN →
      (∀ i ∈ inputs, i.vospi_transfer_segment = false) →
      0 ≤ s.vsync_count → s.vsync_count < 36 → 0 ≤ s.sync_fail_count →
      36 * s.sync_fail_count + s.vsync_count + inputs.length ≤ 395 →
      (lepton_task_loop s inputs).1.task_state = STATE_RUN ∧
      (lepton_task_loop s inputs).1.rsp_buf_index = s.rsp_buf_index ∧
      (lepton_task_loop s inputs).1.reset_fail_count = s.reset_fail_count ∧
      0 ≤ (lepton_task_loop s inputs).1.vsync_count ∧
      (lepton_task_loop s inputs).1.vsync_count < 36 ∧
      36 * (lepton_task_loop s inputs).1.sync_fail_count
          + (lepton_task_loop s inputs).1.vsync_count
        = 36 * s.sync_fail_count + s.vsync_count + inputs.length ∧
      s.sync_fail_count + (resyncPauses (lepton_task_loop s inputs).2 : Int)
        = (lepton_task_loop s inputs).1.sync_fail_count ∧
      framesWritten (lepton_task_loop s inputs).2 = [] ∧
      transitionsInto STATE_RE_INIT (lepton_task_states s inputs) = 0 := by
  induction inputs with
  | nil =>
    intro s hs _ hv0 hv1 hc0 _
    simp [lepton_task_loop, lepton_task_states, transitionsInto, resyncPauses,
      framesWritten, hs, hv0, hv1]
  | cons i rest ih =>
    intro s hs hin hv0 hv1 hc0 hb
    have hi : i.vospi_transfer_segment = false := hin i (List.mem_cons_self _ _)
    have hrest : ∀ j ∈ rest, j.vospi_transfer_segment = false :=
      fun j hj => hin j (List.mem_cons_of_mem _ hj)
    simp only [List.length_cons, Nat.cast_add, Nat.cast_one] at hb
    obtain ⟨a1, a2, a3, a4, a5, a6, a7, a8⟩ :=
      step_run_incomplete s i hs hi hv0 hv1 hc0 (by omega)
    have hc0' : 0 ≤ (lepton_task_step s i).1.sync_fail_count := by omega
    obtain ⟨b1, b2, b3, b4, b5, b6, b7, b8, b9⟩ :=
      ih (lepton_task_step s i).1 a1 hrest a4 a5 hc0' (by omega)
    rw [transitionsInto_states_cons]
    simp only [lepton_task_loop, resyncPauses_append, framesWritten_append,
      List.length_cons, Nat.cast_add, Nat.cast_one]
    refine ⟨b1, by omega, by omega, b4, b5, by omega, by omega, ?_, ?_⟩
    · simp [a8, b8]
    · rw [b9, a1]; simp [STATE_RUN, STATE_RE_INIT]

/-- The incomplete attempt that reaches the fault limit for the first time:
`vsync_count` is 35, `sync_fail_count` is `LEP_SYNC_FAIL_FAULT_LIMIT` and
`reset_fail_count` is 0. -/
theorem step_run_escalate_first (s : LepState) (i : LepInput)
    (hs : s.task_state = STATE_RUN) (hi : i.vospi_transfer_segment = false)
    (hv : s.vsync_count = 35) (hc : s.sync_fail_count = 10)
    (hr : s.reset_fail_count = 0) :
    lepton_task_step s i =
      ({ s with vsync_count := 0, sync_fail_count := 11, task_state := STATE_RE_INIT },
       vsyncWait i.vsync_low_polls ++
         [Action.esp_log LogLevel.info "Could not get lepton image",
          Action.vTaskDelay 185]) := by
  simp [lepton_task_step, hs, hi, hv, hc, hr, STATE_INIT, STATE_RUN, wrapInt32,
    LEP_SYNC_FAIL_FAULT_LIMIT]

/-- A successful `ReInit` iteration. -/
theorem step_reinit_ok (s : LepState) (i : LepInput)
    (hs : s.task_state = STATE_RE_INIT) (hi : i.lepton_init = true) :
    lepton_task_step s i =
      ({ s with task_state := STATE_RUN, reset_fail_count := 1 },
       [Action.esp_log LogLevel.info "Reset Lepton",
        Action.gpio_set_level LEP_RESET_IO 0,
        Action.vTaskDelay 10,
        Action.gpio_set_level LEP_RESET_IO 1,
        Action.vTaskDelay 1000,
        Action.lepton_init]) := by
  simp [lepton_task_step, hs, hi, STATE_INIT, STATE_RUN, STATE_RE_INIT]

/-- A completed frame in `Run`. -/
theorem step_run_complete (s : LepState) (i : LepInput)
    (hs : s.task_state = STATE_RUN) (hi : i.vospi_transfer_segment = true) :
    (lepton_task_step s i).1 =
      { s with vsync_count := 0, rsp_buf_index := if s.rsp_buf_index = 0 then 1 else 0,
               sync_fail_count := 0, reset_fail_count := 0 } ∧
    resyncPauses (lepton_task_step s i).2 = 0 ∧
    framesWritten (lepton_task_step s i).2 = [s.rsp_buf_index] := by
  by_cases h0 : s.rsp_buf_index = 0
  · simp [lepton_task_step, hs, hi, h0, STATE_INIT, STATE_RUN, resyncPauses_append,
      resyncPauses_vsyncWait, framesWritten_append, framesWritten_vsyncWait, framesWritten]
    simp [resyncPauses, isResyncPause]
  · simp [lepton_task_step, hs, hi, h0, STATE_INIT, STATE_RUN, resyncPauses_append,
      resyncPauses_vsyncWait, framesWritten_append, framesWritten_vsyncWait, framesWritten]
    simp [resyncPauses, isResyncPause]

/-- One incomplete attempt in `Run` once `sync_fail_count` is past the fault
limit: the test `sync_fail_count++ == LEP_SYNC_FAIL_FAULT_LIMIT` fails. -/
theorem step_run_incomplete_past_limit (s : LepState) (i : LepInput)
    (hs : s.task_state = STATE_RUN) (hi : i.vospi_transfer_segment = false)
    (hv0 : 0 ≤ s.vsync_count) (hv1 : s.vsync_count < 36)
    (hc0 : 11 ≤ s.sync_fail_count) (hc1 : s.sync_fail_count + 1 < 2147483648) :
    (lepton_task_step s i).1.task_state = STATE_RUN ∧
    (lepton_task_step s i).1.reset_fail_count = s.reset_fail_count ∧
    0 ≤ (lepton_task_step s i).1.vsync_count ∧
    (lepton_task_step s i).1.vsync_count < 36 ∧
    s.sync_fail_count ≤ (lepton_task_step s i).1.sync_fail_count ∧
    (lepton_task_step s i).1.sync_fail_count ≤ s.sync_fail_count + 1 := by
  have hc : ¬ s.sync_fail_count = LEP_SYNC_FAIL_FAULT_LIMIT := by
    simp only [LEP_SYNC_FAIL_FAULT_LIMIT]; omega
  have hw2 : wrapInt32 (s.sync_fail_count + 1) = s.sync_fail_count + 1 :=
    wrapInt32_of_range _ (by omega) (by omega)
  have hw : wrapInt32 (s.vsync_count + 1) = s.vsync_count + 1 :=
    wrapInt32_of_range _ (by omega) (by omega)
  by_cases h36 : s.vsync_count + 1 = 36
  · have hw36 : wrapInt32 (s.vsync_count + 1) = 36 := by rw [hw]; exact h36
    simp [lepton_task_step, hs, hi, hw36, hc, hw2, STATE_INIT, STATE_RUN]
  · simp [lepton_task_step, hs, hi, hw, h36, STATE_INIT, STATE_RUN]
    omega

/-- Once `sync_fail_count` is past the fault limit, incomplete attempts keep
the task in `Run` (as long as the 32-bit counter has not wrapped): it enters
neither `Error` nor `ReInit`, whatever `reset_fail_count` is. -/
theorem run_incompletes_past_limit (inputs : List LepInput) :
    ∀ s : LepState, s.task_state = STATE_RUN →
      (∀ i ∈ inputs, i.vospi_transfer_segment = false) →
      0 ≤ s.vsync_count → s.vsync_count < 36 → 11 ≤ s.sync_fail_count →
      s.sync_fail_count + inputs.length < 2147483648 →
      (lepton_task_loop s inputs).1.task_state = STATE_RUN ∧
      (lepton_task_loop s inputs).1.reset_fail_count = s.reset_fail_count ∧
      0 ≤ (lepton_task_loop s inputs).1.vsync_count ∧
      (lepton_task_loop s inputs).1.vsync_count < 36 ∧
      s.sync_fail_count ≤ (lepton_task_loop s inputs).1.sync_fail_count ∧
      (lepton_task_loop s inputs).1.sync_fail_count ≤ s.sync_fail_count + inputs.length ∧
      transitionsInto STATE_ERROR (lepton_task_states s inputs) = 0 ∧
      transitionsInto STATE_RE_INIT (lepton_task_states s inputs) = 0 := by
  induction inputs with
  | nil =>
    intro s hs _ hv0 hv1 _ _
    simp [lepton_task_loop, lepton_task_states, transitionsInto, hs, hv0, hv1]
  | cons i rest ih =>
    intro s hs hin hv0 hv1 hc0 hb
    have hi : i.vospi_transfer_segment = false := hin i (List.mem_cons_self _ _)
    have hrest : ∀ j ∈ rest, j.vospi_transfer_segment = false :=
      fun j hj => hin j (List.mem_cons_of_mem _ hj)
    simp only [List.length_cons, Nat.cast_add, Nat.cast_one] at hb
    obtain ⟨a1, a2, a3, a4, a5, a6⟩ :=
      step_run_incomplete_past_limit s i hs hi hv0 hv1 hc0 (by omega)
    obtain ⟨b1, b2, b3, b4, b5, b6, b7, b8⟩ :=
      ih (lepton_task_step s i).1 a1 hrest a3 a4 (by omega) (by omega)
    rw [transitionsInto_states_cons, transitionsInto_states_cons]
    simp only [lepton_task_loop, List.length_cons, Nat.cast_add, Nat.cast_one]
    refine ⟨b1, by omega, b3, b4, by omega, by omega, ?_, ?_⟩
    · rw [b7, a1]; simp [STATE_RUN, STATE_ERROR]
    · rw [b8, a1]; simp [STATE_RUN, STATE_RE_INIT]

/-- An iteration writes a frame exactly when it is a `Run` iteration whose
segment attempt completes; it then writes the slot that was next and flips
the index, and otherwise leaves the index alone. -/
theorem step_frames (s : LepState) (i : LepInput) :
    (s.task_state = STATE_RUN ∧ i.vospi_transfer_segment = true →
      framesWritten (lepton_task_step s i).2 = [s.rsp_buf_index] ∧
      (lepton_task_step s i).1.rsp_buf_index = if s.rsp_buf_index = 0 then 1 else 0) ∧
    (¬ (s.task_state = STATE_RUN ∧ i.vospi_transfer_segment = true) →
      framesWritten (lepton_task_step s i).2 = [] ∧
      (lepton_task_step s i).1.rsp_buf_index = s.rsp_buf_index) := by
  constructor
  · rintro ⟨hs, hi⟩
    obtain ⟨c1, _, c3⟩ := step_run_complete s i hs hi
    rw [c1]
    exact ⟨c3, rfl⟩
  · intro h
    unfold lepton_task_step
    split_ifs <;>
      simp_all [framesWritten_append, framesWritten_vsyncWait, framesWritten]

/-- From an index that is 0 or 1, the frames written alternate, starting at
that index. -/
theorem framesWritten_loop_alternate (inputs : List LepInput) :
    ∀ (s : LepState) (N : Nat) (slot : Int),
      (s.rsp_buf_index = 0 ∨ s.rsp_buf_index = 1) →
      (framesWritten (lepton_task_loop s inputs).2)[N]? = some slot →
      slot = (s.rsp_buf_index + N) % 2 := by
  induction inputs with
  | nil => intro s N slot _ h; simp [lepton_task_loop, framesWritten] at h
  | cons i rest ih =>
    intro s N slot hidx h
    simp only [lepton_task_loop, framesWritten_append] at h
    by_cases hc : s.task_state = STATE_RUN ∧ i.vospi_transfer_segment = true
    · obtain ⟨f1, f2⟩ := (step_frames s i).1 hc
      rw [f1] at h
      cases N with
      | zero =>
        simp at h
        rcases hidx with h0 | h1 <;> omega
      | succ M =>
        simp only [List.singleton_append, List.getElem?_cons_succ] at h
        have := ih (lepton_task_step s i).1 M slot
          (by rw [f2]; rcases hidx with h0 | h1 <;> simp [*]) h
        rw [f2] at this
        rcases hidx with h0 | h1
        · simp [h0] at this; rw [h0]; push_cast; omega
        · simp [h1] at this; rw [h1]; push_cast; omega
    · obtain ⟨f1, f2⟩ := (step_frames s i).2 hc
      rw [f1, List.nil_append] at h
      have := ih (lepton_task_step s i).1 N slot (by rw [f2]; exact hidx) h
      rw [f2] at this
      exact this

/-- The calls before the loop write no frame. -/
theorem framesWritten_lepton_task (ok : Bool) (inputs : List LepInput) :
    framesWritten (lepton_task ok inputs).2 =
      if ok then framesWritten (lepton_task_loop lepInitial inputs).2 else [] := by
  cases ok <;> simp [lepton_task, leptonPrologue, framesWritten_append, framesWritten]

/-- Consecutive entries of the state sequence are related by one iteration. -/
theorem lepton_task_states_succ (inputs : List LepInput) :
    ∀ (s : LepState) (k : Nat) (a b : LepState),
      (lepton_task_states s inputs)[k]? = some a →
      (lepton_task_states s inputs)[k + 1]? = some b →
      ∃ i, b = (lepton_task_step a i).1 := by
  induction inputs with
  | nil => intro s k a b _ hb; simp [lepton_task_states] at hb
  | cons i rest ih =>
    intro s k a b ha hb
    simp only [lepton_task_states, List.getElem?_cons_succ] at hb
    cases k with
    | zero =>
      simp only [lepton_task_states, List.getElem?_cons_zero, Option.some.injEq] at ha
      obtain ⟨tl, htl⟩ := lepton_task_states_cons (lepton_task_step s i).1 rest
      rw [htl] at hb
      simp only [List.getElem?_cons_zero, Option.some.injEq] at hb
      exact ⟨i, by rw [← ha, ← hb]⟩
    | succ k =>
      simp only [lepton_task_states, List.getElem?_cons_succ] at ha
      exact ih _ k a b ha hb

/-- The successors of `Error` in one iteration. -/
theorem step_error (s : LepState) (i : LepInput) (hs : s.task_state = STATE_ERROR) :
    lepton_task_step s i =
      (if wrapInt32 (s.reset_fail_count - 1) = 0 then
        { s with reset_fail_count := wrapInt32 (s.reset_fail_count - 1),
                 task_state := STATE_RE_INIT }
       else { s with reset_fail_count := wrapInt32 (s.reset_fail_count - 1) },
       [Action.vTaskDelay 1000]) := by
  by_cases h : wrapInt32 (s.reset_fail_count - 1) = 0
  · simp [lepton_task_step, hs, h, STATE_INIT, STATE_RUN, STATE_ERROR, STATE_RE_INIT]
  · simp [lepton_task_step, hs, h, STATE_INIT, STATE_RUN, STATE_ERROR, STATE_RE_INIT]

/-- One iteration keeps `sync_fail_count` equal to the 32-bit reading of the
number of resynchronization pauses since the last frame. -/
theorem step_sync_fail_count (s : LepState) (i : LepInput) (acc : Nat)
    (h : wrapInt32 acc = s.sync_fail_count) :
    wrapInt32 (resyncFailuresSinceFrame acc (lepton_task_step s i).2)
      = (lepton_task_step s i).1.sync_fail_count := by
  have hw : wrapInt32 ((acc : Int) + 1) = wrapInt32 (s.sync_fail_count + 1) := by
    rw [← h]; unfold wrapInt32; omega
  have h0 : wrapInt32 0 = 0 := by decide
  have hwait : ∀ k, List.foldl sinceFrameStep acc (vsyncWait k) = acc :=
    fun k => resyncFailuresSinceFrame_vsyncWait acc k
  unfold lepton_task_step
  split_ifs <;>
    simp [resyncFailuresSinceFrame, List.foldl_append, hwait, sinceFrameStep, h, hw, h0]

/-- The loop keeps `sync_fail_count` equal to the 32-bit reading of the number
of resynchronization pauses since the last frame. -/
theorem loop_sync_fail_count (inputs : List LepInput) :
    ∀ (s : LepState) (acc : Nat), wrapInt32 acc = s.sync_fail_count →
      wrapInt32 (resyncFailuresSinceFrame acc (lepton_task_loop s inputs).2)
        = (lepton_task_loop s inputs).1.sync_fail_count := by
  induction inputs with
  | nil => intro s acc h; simpa [lepton_task_loop, resyncFailuresSinceFrame] using h
  | cons i rest ih =>
    intro s acc h
    simp only [lepton_task_loop, resyncFailuresSinceFrame_append]
    exact ih _ _ (step_sync_fail_count s i acc h)

/-- The only way from `Run` to `ReInit` in one iteration. -/
theorem step_run_to_reinit (s : LepState) (i : LepInput)
    (hs : s.task_state = STATE_RUN)
    (hre : (lepton_task_step s i).1.task_state = STATE_RE_INIT) :
    i.vospi_transfer_segment = false ∧ wrapInt32 (s.vsync_count + 1) = 36 ∧
    s.sync_fail_count = LEP_SYNC_FAIL_FAULT_LIMIT ∧ s.reset_fail_count = 0 := by
  unfold lepton_task_step at hre
  split_ifs at hre <;>
    simp_all [STATE_INIT, STATE_RUN, STATE_RE_INIT, STATE_ERROR]

/-- The count-down in `Error`: while fewer iterations have run than the timer
holds, each iteration sleeps one second and takes one off the timer. -/
theorem error_countdown (inputs : List LepInput) :
    ∀ s : LepState, s.task_state = STATE_ERROR →
      (inputs.length : Int) < s.reset_fail_count → s.reset_fail_count < 2147483648 →
      (lepton_task_loop s inputs).1
        = { s with reset_fail_count := s.reset_fail_count - inputs.length } ∧
      (lepton_task_loop s inputs).2
        = List.replicate inputs.length (Action.vTaskDelay 1000) := by
  induction inputs with
  | nil => intro s _ _ _; simp [lepton_task_loop]
  | cons i rest ih =>
    intro s hs hlen hmax
    simp only [List.length_cons, Nat.cast_add, Nat.cast_one] at hlen
    have hw : wrapInt32 (s.reset_fail_count - 1) = s.reset_fail_count - 1 :=
      wrapInt32_of_range _ (by omega) (by omega)
    have hne : ¬ s.reset_fail_count - 1 = 0 := by omega
    have hstep := step_error s i hs
    rw [hw, if_neg hne] at hstep
    obtain ⟨b1, b2⟩ := ih { s with reset_fail_count := s.reset_fail_count - 1 } hs
      (by simp only; omega) (by simp only; omega)
    simp only [lepton_task_loop, hstep, b1, b2, List.length_cons, List.replicate_succ,
      List.singleton_append, Nat.cast_add, Nat.cast_one, and_true]
    congr 1
    omega

/-- Every way into `Error` sets the timer to `LEP_RESET_FAIL_RETRY_SECS`. -/
theorem step_into_error (s : LepState) (i : LepInput)
    (hs : s.task_state ≠ STATE_ERROR)
    (he : (lepton_task_step s i).1.task_state = STATE_ERROR) :
    (lepton_task_step s i).1.reset_fail_count = LEP_RESET_FAIL_RETRY_SECS := by
  unfold lepton_task_step at he ⊢
  split_ifs at he ⊢ <;>
    simp_all [STATE_INIT, STATE_RUN, STATE_RE_INIT, STATE_ERROR]

/-- Slots copied by a concatenated trace. -/
theorem slotsCopied_append (a b : List Action) :
    slotsCopied (a ++ b) = slotsCopied a ++ slotsCopied b := by
  induction a with
  | nil => rfl
  | cons x rest ih => cases x <;> simp [slotsCopied, ih]

/-- The function `send_response` touches `sockfd` only. -/
theorem send_response_state (m : SendState) (net : NetOutcome) (n : Nat) :
    (send_response m net n).1 = { m with sockfd := (send_response m net n).1.sockfd } := by
  unfold send_response socket_connect
  split_ifs <;> rfl

/-- The function `send_response` copies no slot. -/
theorem slotsCopied_send_response (m : SendState) (net : NetOutcome) (n : Nat) :
    slotsCopied (send_response m net n).2 = [] := by
  unfold send_response socket_connect http_get
  split_ifs <;> simp [slotsCopied]

/-- An iteration of `send_task` that starts with `got_image_0` recorded (before
or by the poll): it copies slot 0, delivers it, clears `got_image_0`, leaves
`got_image_1` as the poll left it, and sleeps. -/
theorem send_task_step_slot0 (P : Nat) (hP : 0 < P) (m : SendState) (i : SendInput)
    (h0 : (handle_notifications m i.notify).1.got_image_0 = true) :
    (∃ m', (send_task_step P m i).2 =
        [Action.xTaskNotifyWait, Action.xSemaphoreTake 0, Action.memcpy 0 (P * 2),
         Action.xSemaphoreGive 0]
          ++ (send_response m' i.net (P * 2)).2
          ++ [Action.vTaskDelay RSP_TASK_SLEEP_MSEC] ∧
      m'.send_img_buffer = m.lep_buffer_0) ∧
    slotsCopied (send_task_step P m i).2 = [0] ∧
    (send_task_step P m i).1.got_image_0 = false ∧
    (send_task_step P m i).1.got_image_1 = (handle_notifications m i.notify).1.got_image_1 ∧
    (send_task_step P m i).1.send_img_buffer = m.lep_buffer_0 := by
  have hlen : ¬ ((P : Int) * 2 = 0) := by omega
  have hbuf : (handle_notifications m i.notify).1.lep_buffer_0 = m.lep_buffer_0 := by
    unfold handle_notifications; split <;> rfl
  have htr : (handle_notifications m i.notify).2 = [Action.xTaskNotifyWait] := by
    unfold handle_notifications; split <;> rfl
  refine ⟨⟨{ (process_image P (handle_notifications m i.notify).1 0).1.1 with
              got_image_0 := false }, ?_, ?_⟩, ?_, ?_, ?_, ?_⟩
  · simp [send_task_step, h0, process_image, hlen, htr]
  · simp [process_image, lepBufferAt, hbuf]
  · simp [send_task_step, h0, process_image, hlen, htr, slotsCopied_append,
      slotsCopied_send_response, slotsCopied]
  · simp only [send_task_step, h0, process_image, hlen, Bool.true_or, if_true, ne_eq,
      not_false_eq_true]
    rw [send_response_state]
  · simp only [send_task_step, h0, process_image, hlen, Bool.true_or, if_true, ne_eq,
      not_false_eq_true]
    rw [send_response_state]
  · simp only [send_task_step, h0, process_image, hlen, Bool.true_or, if_true, ne_eq,
      not_false_eq_true]
    rw [send_response_state]
    simp [lepBufferAt, hbuf]

/-- An iteration of `send_task` that starts with only `got_image_1` recorded:
it copies slot 1, delivers it, clears `got_image_1`, and sleeps. -/
theorem send_task_step_slot1 (P : Nat) (hP : 0 < P) (m : SendState) (i : SendInput)
    (h0 : (handle_notifications m i.notify).1.got_image_0 = false)
    (h1 : (handle_notifications m i.notify).1.got_image_1 = true) :
    (∃ m', (send_task_step P m i).2 =
        [Action.xTaskNotifyWait, Action.xSemaphoreTake 1, Action.memcpy 1 (P * 2),
         Action.xSemaphoreGive 1]
          ++ (send_response m' i.net (P * 2)).2
          ++ [Action.vTaskDelay RSP_TASK_SLEEP_MSEC] ∧
      m'.send_img_buffer = m.lep_buffer_1) ∧
    slotsCopied (send_task_step P m i).2 = [1] ∧
    (send_task_step P m i).1.got_image_0 = false ∧
    (send_task_step P m i).1.got_image_1 = false ∧
    (send_task_step P m i).1.send_img_buffer = m.lep_buffer_1 := by
  have hlen : ¬ ((P : Int) * 2 = 0) := by omega
  have hbuf : (handle_notifications m i.notify).1.lep_buffer_1 = m.lep_buffer_1 := by
    unfold handle_notifications; split <;> rfl
  have htr : (handle_notifications m i.notify).2 = [Action.xTaskNotifyWait] := by
    unfold handle_notifications; split <;> rfl
  refine ⟨⟨{ (process_image P (handle_notifications m i.notify).1 1).1.1 with
              got_image_1 := false }, ?_, ?_⟩, ?_, ?_, ?_, ?_⟩
  · simp [send_task_step, h0, h1, process_image, hlen, htr]
  · simp [process_image, lepBufferAt, hbuf]
  · simp [send_task_step, h0, h1, process_image, hlen, htr, slotsCopied_append,
      slotsCopied_send_response, slotsCopied]
  · simp only [send_task_step, h0, h1, process_image, hlen, Bool.false_or, if_true, ne_eq,
      not_false_eq_true, Bool.false_eq_true, if_false]
    rw [send_response_state]
  · simp only [send_task_step, h0, h1, process_image, hlen, Bool.false_or, if_true, ne_eq,
      not_false_eq_true, Bool.false_eq_true, if_false]
    rw [send_response_state]
  · simp only [send_task_step, h0, h1, process_image, hlen, Bool.false_or, if_true, ne_eq,
      not_false_eq_true, Bool.false_eq_true, if_false]
    rw [send_response_state]
    simp [lepBufferAt, hbuf]

/-- The hand-off check over a concatenated trace. -/
theorem handoffCheck_append (p : HandoffPhase) (a b : List Action) :
    handoffCheck p (a ++ b) = handoffCheck (handoffCheck p a) b := by
  simp [handoffCheck, List.foldl_append]

/-- The spin on the frame-start line is outside any hand-off. -/
theorem handoffCheck_vsyncWait (k : Nat) :
    handoffCheck HandoffPhase.idle (vsyncWait k) = HandoffPhase.idle := by
  induction k with
  | zero => rfl
  | succ k ih =>
    simp only [handoffCheck] at ih
    simp [vsyncWait, handoffCheck, List.foldl_cons, handoffStep, ih]

/-- The guard check over a concatenated trace. -/
theorem guardCheck_append (g : GuardState) (a b : List Action) :
    guardCheck g (a ++ b) = guardCheck (guardCheck g a) b := by
  simp [guardCheck, List.foldl_append]

/-- The spin on the frame-start line holds no mutex. -/
theorem guardCheck_vsyncWait (k : Nat) :
    guardCheck GuardState.free (vsyncWait k) = GuardState.free := by
  induction k with
  | zero => rfl
  | succ k ih =>
    simp only [guardCheck] at ih
    simp [vsyncWait, guardCheck, List.foldl_cons, guardStep, ih]

/-- One iteration of `lepton_task` keeps `rsp_buf_index` in the two slots. -/
theorem step_rsp_buf_index (s : LepState) (i : LepInput)
    (h : s.rsp_buf_index = 0 ∨ s.rsp_buf_index = 1) :
    (lepton_task_step s i).1.rsp_buf_index = 0 ∨
    (lepton_task_step s i).1.rsp_buf_index = 1 := by
  unfold lepton_task_step
  split_ifs <;> simp_all

/-- One iteration of `lepton_task` from an index in the two slots is a whole
number of hand-offs. -/
theorem step_handoff (s : LepState) (i : LepInput)
    (h : s.rsp_buf_index = 0 ∨ s.rsp_buf_index = 1) :
    handoffCheck HandoffPhase.idle (lepton_task_step s i).2 = HandoffPhase.idle := by
  have hw : ∀ k, List.foldl handoffStep HandoffPhase.idle (vsyncWait k) = HandoffPhase.idle :=
    handoffCheck_vsyncWait
  unfold lepton_task_step
  split_ifs <;> first
    | rfl
    | (rcases h with h | h <;>
        simp_all [handoffCheck, List.foldl_append, handoffStep,
          RSP_NOTIFY_LEP_FRAME_MASK_0, RSP_NOTIFY_LEP_FRAME_MASK_1])

/-- The loop of `lepton_task` from an index in the two slots is a whole number
of hand-offs, and the index stays in the two slots. -/
theorem loop_handoff (inputs : List LepInput) :
    ∀ s : LepState, (s.rsp_buf_index = 0 ∨ s.rsp_buf_index = 1) →
      handoffCheck HandoffPhase.idle (lepton_task_loop s inputs).2 = HandoffPhase.idle ∧
      ((lepton_task_loop s inputs).1.rsp_buf_index = 0 ∨
       (lepton_task_loop s inputs).1.rsp_buf_index = 1) := by
  induction inputs with
  | nil => intro s h; exact ⟨rfl, h⟩
  | cons i rest ih =>
    intro s h
    obtain ⟨b1, b2⟩ := ih (lepton_task_step s i).1 (step_rsp_buf_index s i h)
    simp only [lepton_task_loop, handoffCheck_append, step_handoff s i h]
    exact ⟨b1, b2⟩

/-- One iteration of `lepton_task` respects the guard discipline, from any
values of the locals. -/
theorem step_guard (s : LepState) (i : LepInput) :
    guardCheck GuardState.free (lepton_task_step s i).2 = GuardState.free := by
  have hw : ∀ k, List.foldl guardStep GuardState.free (vsyncWait k) = GuardState.free :=
    guardCheck_vsyncWait
  unfold lepton_task_step
  split_ifs <;> first
    | rfl
    | simp [guardCheck, List.foldl_append, guardStep, hw]

/-- The function `send_response` takes no mutex and touches no slot. -/
theorem guardCheck_send_response (m : SendState) (net : NetOutcome) (n : Nat) :
    guardCheck GuardState.free (send_response m net n).2 = GuardState.free := by
  unfold send_response socket_connect http_get
  split_ifs <;> simp [guardCheck, guardStep]

/-- One iteration of `send_task` respects the guard discipline. -/
theorem send_step_guard (P : Nat) (m : SendState) (i : SendInput) :
    guardCheck GuardState.free (send_task_step P m i).2 = GuardState.free := by
  have hn : (handle_notifications m i.notify).2 = [Action.xTaskNotifyWait] := by
    unfold handle_notifications; split <;> rfl
  have hr : ∀ m' k, List.foldl guardStep GuardState.free (send_response m' i.net k).2
      = GuardState.free := fun m' k => guardCheck_send_response m' i.net k
  unfold send_task_step
  simp only [hn]
  split_ifs <;>
    simp [guardCheck, List.foldl_append, guardStep, process_image, hr]

/-- The idle spin creates no task. -/
theorem tasksCreated_idleSpin (k : Nat) : tasksCreated (idleSpin k) = [] := by
  induction k with
  | zero => rfl
  | succ k ih =>
    simp only [idleSpin] at ih
    simp [idleSpin, List.replicate_succ, tasksCreated, ih]

/-- The idle spin runs no initialization step. -/
theorem initSteps_idleSpin (k : Nat) : initSteps (idleSpin k) = [] := by
  induction k with
  | zero => rfl
  | succ k ih =>
    simp only [idleSpin] at ih
    simp [idleSpin, List.replicate_succ, initSteps, ih]

/-- The macro `Notification` with a one-bit mask tests that bit. -/
theorem Notification_two_pow (v k : Nat) : Notification v (2 ^ k) = v.testBit k := by
  unfold Notification
  rw [Nat.and_two_pow]
  cases h : v.testBit k
  · have : 0 < 2 ^ k := Nat.two_pow_pos k
    simp
    omega
  · simp

/-- The function `handle_notifications` makes one non-blocking poll and
touches the two flags only. -/
theorem handle_notifications_frame (m : SendState) (n : Option Nat) :
    (handle_notifications m n).2 = [Action.xTaskNotifyWait] ∧
    (handle_notifications m n).1.sockfd = m.sockfd ∧
    (handle_notifications m n).1.send_img_buffer = m.send_img_buffer ∧
    (handle_notifications m n).1.lep_buffer_0 = m.lep_buffer_0 ∧
    (handle_notifications m n).1.lep_buffer_1 = m.lep_buffer_1 := by
  unfold handle_notifications
  split <;> exact ⟨rfl, rfl, rfl, rfl, rfl⟩

/-- The function `send_response` leaves the flags, the scratch buffer and the
frame store alone. -/
theorem send_response_fields (m : SendState) (net : NetOutcome) (n : Nat) :
    (send_response m net n).1.got_image_0 = m.got_image_0 ∧
    (send_response m net n).1.got_image_1 = m.got_image_1 ∧
    (send_response m net n).1.send_img_buffer = m.send_img_buffer ∧
    (send_response m net n).1.lep_buffer_0 = m.lep_buffer_0 ∧
    (send_response m net n).1.lep_buffer_1 = m.lep_buffer_1 := by
  have h := send_response_state m net n
  refine ⟨?_, ?_, ?_, ?_, ?_⟩ <;> rw [h]

/-- The memory after one iteration of `send_task`, apart from `sockfd`, in
terms of the flags as the poll left them: `got_image_0` is clear,
`got_image_1` is set only when both were recorded, the scratch buffer holds
the image of the slot served (if any), and the frame store is untouched. The
network outcome does not enter. -/
theorem send_task_step_mem (P : Nat) (m : SendState) (i : SendInput) :
    (send_task_step P m i).1.got_image_0 = false ∧
    (send_task_step P m i).1.got_image_1 =
      ((handle_notifications m i.notify).1.got_image_0
        && (handle_notifications m i.notify).1.got_image_1) ∧
    (send_task_step P m i).1.send_img_buffer =
      (if (handle_notifications m i.notify).1.got_image_0 = true then m.lep_buffer_0
       else if (handle_notifications m i.notify).1.got_image_1 = true then m.lep_buffer_1
       else m.send_img_buffer) ∧
    (send_task_step P m i).1.lep_buffer_0 = m.lep_buffer_0 ∧
    (send_task_step P m i).1.lep_buffer_1 = m.lep_buffer_1 ∧
    slotsCopied (send_task_step P m i).2 =
      (if (handle_notifications m i.notify).1.got_image_0 = true then [0]
       else if (handle_notifications m i.notify).1.got_image_1 = true then [1]
       else []) := by
  obtain ⟨hn, _, hbuf, hb0, hb1⟩ := handle_notifications_frame m i.notify
  unfold send_task_step
  simp only [hn]
  cases h0 : (handle_notifications m i.notify).1.got_image_0 <;>
    cases h1 : (handle_notifications m i.notify).1.got_image_1 <;>
    simp only [Bool.or_self, Bool.or_true, Bool.true_or, Bool.false_eq_true, if_false,
      if_true, Bool.and_self, Bool.and_true, Bool.and_false, Bool.true_and] <;>
    (try split_ifs) <;>
    simp [process_image, lepBufferAt, send_response_fields, slotsCopied_append,
      slotsCopied_send_response, slotsCopied, h0, h1, hbuf, hb0, hb1]

/-- One iteration of `lepton_task` keeps the state among the four cases, the
index in the two slots, `vsync_count` in 0..35, `sync_fail_count` in the range
of `int`, and `reset_fail_count` at 0 in `Init`, at 0 or 1 in `Run` and in
1..60 in `Error`. -/
theorem step_invariant (s : LepState) (i : LepInput)
    (h : (s.task_state = STATE_INIT ∨ s.task_state = STATE_RUN ∨
          s.task_state = STATE_RE_INIT ∨ s.task_state = STATE_ERROR) ∧
        (s.rsp_buf_index = 0 ∨ s.rsp_buf_index = 1) ∧
        0 ≤ s.vsync_count ∧ s.vsync_count ≤ 35 ∧
        -2147483648 ≤ s.sync_fail_count ∧ s.sync_fail_count < 2147483648 ∧
        (s.task_state = STATE_INIT → s.reset_fail_count = 0) ∧
        (s.task_state = STATE_RUN → s.reset_fail_count = 0 ∨ s.reset_fail_count = 1) ∧
        (s.task_state = STATE_ERROR →
          1 ≤ s.reset_fail_count ∧ s.reset_fail_count ≤ LEP_RESET_FAIL_RETRY_SECS)) :
    ((lepton_task_step s i).1.task_state = STATE_INIT ∨
      (lepton_task_step s i).1.task_state = STATE_RUN ∨
      (lepton_task_step s i).1.task_state = STATE_RE_INIT ∨
      (lepton_task_step s i).1.task_state = STATE_ERROR) ∧
    ((lepton_task_step s i).1.rsp_buf_index = 0 ∨
      (lepton_task_step s i).1.rsp_buf_index = 1) ∧
    0 ≤ (lepton_task_step s i).1.vsync_count ∧
    (lepton_task_step s i).1.vsync_count ≤ 35 ∧
    -2147483648 ≤ (lepton_task_step s i).1.sync_fail_count ∧
    (lepton_task_step s i).1.sync_fail_count < 2147483648 ∧
    ((lepton_task_step s i).1.task_state = STATE_INIT →
      (lepton_task_step s i).1.reset_fail_count = 0) ∧
    ((lepton_task_step s i).1.task_state = STATE_RUN →
      (lepton_task_step s i).1.reset_fail_count = 0 ∨
      (lepton_task_step s i).1.reset_fail_count = 1) ∧
    ((lepton_task_step s i).1.task_state = STATE_ERROR →
      1 ≤ (lepton_task_step s i).1.reset_fail_count ∧
      (lepton_task_step s i).1.reset_fail_count ≤ LEP_RESET_FAIL_RETRY_SECS) := by
  obtain ⟨h1, h2, h3, h4, h5, h6, h7, h8, h9⟩ := h
  have hwv : wrapInt32 (s.vsync_count + 1) = s.vsync_count + 1 :=
    wrapInt32_of_range _ (by omega) (by omega)
  have hws1 : -2147483648 ≤ wrapInt32 (s.sync_fail_count + 1) := by
    unfold wrapInt32; omega
  have hws2 : wrapInt32 (s.sync_fail_count + 1) < 2147483648 := by
    unfold wrapInt32; omega
  simp only [STATE_INIT, STATE_RUN, STATE_RE_INIT, STATE_ERROR,
    LEP_RESET_FAIL_RETRY_SECS] at h1 h7 h8 h9 ⊢
  rcases h1 with h1 | h1 | h1 | h1
  · have h70 := h7 h1
    cases hi : i.lepton_init <;>
      simp [lepton_task_step, h1, hi, STATE_INIT, STATE_RUN, STATE_RE_INIT, STATE_ERROR,
        LEP_RESET_FAIL_RETRY_SECS, h2, h3, h4, h5, h6, h70]
  · have h80 := h8 h1
    cases hi : i.vospi_transfer_segment
    · by_cases h36 : s.vsync_count + 1 = 36
      · have hw36 : wrapInt32 (s.vsync_count + 1) = 36 := by rw [hwv]; exact h36
        have hw11 : wrapInt32 11 = 11 := by decide
        by_cases hc : s.sync_fail_count = 10
        · by_cases hr : s.reset_fail_count = 0
          · simp [lepton_task_step, h1, hi, hw36, hc, hr, hw11, STATE_INIT, STATE_RUN,
              STATE_RE_INIT, STATE_ERROR, LEP_SYNC_FAIL_FAULT_LIMIT, h2]
          · simp [lepton_task_step, h1, hi, hw36, hc, hr, hw11, STATE_INIT, STATE_RUN,
              STATE_RE_INIT, STATE_ERROR, LEP_RESET_FAIL_RETRY_SECS,
              LEP_SYNC_FAIL_FAULT_LIMIT, h2]
        · simp [lepton_task_step, h1, hi, hw36, hc, STATE_INIT, STATE_RUN,
            STATE_RE_INIT, STATE_ERROR, LEP_SYNC_FAIL_FAULT_LIMIT, h2, hws1, hws2, h80]
      · simp [lepton_task_step, h1, hi, hwv, h36, STATE_INIT, STATE_RUN, STATE_RE_INIT,
          STATE_ERROR, h2, h5, h6, h80]
        omega
    · rcases h2 with h2 | h2 <;>
        simp [lepton_task_step, h1, hi, h2, STATE_INIT, STATE_RUN, STATE_RE_INIT,
          STATE_ERROR]
  · cases hi : i.lepton_init <;>
      simp [lepton_task_step, h1, hi, STATE_INIT, STATE_RUN, STATE_RE_INIT, STATE_ERROR,
        LEP_RESET_FAIL_RETRY_SECS, h2, h3, h4, h5, h6]
  · obtain ⟨h91, h92⟩ := h9 h1
    have hwr : wrapInt32 (s.reset_fail_count - 1) = s.reset_fail_count - 1 :=
      wrapInt32_of_range _ (by omega) (by omega)
    by_cases hz : s.reset_fail_count - 1 = 0
    · have hwz : wrapInt32 (s.reset_fail_count - 1) = 0 := by rw [hwr]; exact hz
      simp [lepton_task_step, h1, hwz, STATE_INIT, STATE_RUN, STATE_RE_INIT,
        STATE_ERROR, h2, h3, h4, h5, h6]
    · simp [lepton_task_step, h1, hwr, hz, STATE_INIT, STATE_RUN, STATE_RE_INIT,
        STATE_ERROR, h2, h3, h4, h5, h6]
      omega

/-- From task start, at the head of every iteration: the state is one of the
four cases, the index is 0 or 1, `vsync_count` is in 0..35, `sync_fail_count`
is in the range of `int`, and `reset_fail_count` is 0 in `Init`, 0 or 1 in
`Run` and in 1..60 in `Error`. -/
theorem loop_invariant (inputs : List LepInput) :
    ∀ s : LepState,
      ((s.task_state = STATE_INIT ∨ s.task_state = STATE_RUN ∨
          s.task_state = STATE_RE_INIT ∨ s.task_state = STATE_ERROR) ∧
        (s.rsp_buf_index = 0 ∨ s.rsp_buf_index = 1) ∧
        0 ≤ s.vsync_count ∧ s.vsync_count ≤ 35 ∧
        -2147483648 ≤ s.sync_fail_count ∧ s.sync_fail_count < 2147483648 ∧
        (s.task_state = STATE_INIT → s.reset_fail_count = 0) ∧
        (s.task_state = STATE_RUN → s.reset_fail_count = 0 ∨ s.reset_fail_count = 1) ∧
        (s.task_state = STATE_ERROR →
          1 ≤ s.reset_fail_count ∧ s.reset_fail_count ≤ LEP_RESET_FAIL_RETRY_SECS)) →
      (((lepton_task_loop s inputs).1.task_state = STATE_INIT ∨
          (lepton_task_loop s inputs).1.task_state = STATE_RUN ∨
          (lepton_task_loop s inputs).1.task_state = STATE_RE_INIT ∨
          (lepton_task_loop s inputs).1.task_state = STATE_ERROR) ∧
        ((lepton_task_loop s inputs).1.rsp_buf_index = 0 ∨
          (lepton_task_loop s inputs).1.rsp_buf_index = 1) ∧
        0 ≤ (lepton_task_loop s inputs).1.vsync_count ∧
        (lepton_task_loop s inputs).1.vsync_count ≤ 35 ∧
        -2147483648 ≤ (lepton_task_loop s inputs).1.sync_fail_count ∧
        (lepton_task_loop s inputs).1.sync_fail_count < 2147483648 ∧
        ((lepton_task_loop s inputs).1.task_state = STATE_INIT →
          (lepton_task_loop s inputs).1.reset_fail_count = 0) ∧
        ((lepton_task_loop s inputs).1.task_state = STATE_RUN →
          (lepton_task_loop s inputs).1.reset_fail_count = 0 ∨
          (lepton_task_loop s inputs).1.reset_fail_count = 1) ∧
        ((lepton_task_loop s inputs).1.task_state = STATE_ERROR →
          1 ≤ (lepton_task_loop s inputs).1.reset_fail_count ∧
          (lepton_task_loop s inputs).1.reset_fail_count ≤ LEP_RESET_FAIL_RETRY_SECS)) := by
  induction inputs with
  | nil => intro s h; exact h
  | cons i rest ih =>
    intro s h
    exact ih (lepton_task_step s i).1 (step_invariant s i h)

/-- The invariant of `loop_invariant` holds at the head of every iteration of
`lepton_task` from task start, for every sequence of outcomes. -/
theorem lepton_task_invariant (vospi_init_ok : Bool) (inputs : List LepInput) :
    ((lepton_task vospi_init_ok inputs).1.task_state = STATE_INIT ∨
      (lepton_task vospi_init_ok inputs).1.task_state = STATE_RUN ∨
      (lepton_task vospi_init_ok inputs).1.task_state = STATE_RE_INIT ∨
      (lepton_task vospi_init_ok inputs).1.task_state = STATE_ERROR) ∧
    ((lepton_task vospi_init_ok inputs).1.rsp_buf_index = 0 ∨
      (lepton_task vospi_init_ok inputs).1.rsp_buf_index = 1) ∧
    0 ≤ (lepton_task vospi_init_ok inputs).1.vsync_count ∧
    (lepton_task vospi_init_ok inputs).1.vsync_count ≤ 35 ∧
    -2147483648 ≤ (lepton_task vospi_init_ok inputs).1.sync_fail_count ∧
    (lepton_task vospi_init_ok inputs).1.sync_fail_count < 2147483648 ∧
    ((lepton_task vospi_init_ok inputs).1.task_state = STATE_RUN →
      (lepton_task vospi_init_ok inputs).1.reset_fail_count = 0 ∨
      (lepton_task vospi_init_ok inputs).1.reset_fail_count = 1) ∧
    ((lepton_task vospi_init_ok inputs).1.task_state = STATE_ERROR →
      1 ≤ (lepton_task vospi_init_ok inputs).1.reset_fail_count ∧
      (lepton_task vospi_init_ok inputs).1.reset_fail_count ≤ LEP_RESET_FAIL_RETRY_SECS) := by
  have h0 : (lepInitial.task_state = STATE_INIT ∨ lepInitial.task_state = STATE_RUN ∨
          lepInitial.task_state = STATE_RE_INIT ∨ lepInitial.task_state = STATE_ERROR) ∧
        (lepInitial.rsp_buf_index = 0 ∨ lepInitial.rsp_buf_index = 1) ∧
        0 ≤ lepInitial.vsync_count ∧ lepInitial.vsync_count ≤ 35 ∧
        -2147483648 ≤ lepInitial.sync_fail_count ∧ lepInitial.sync_fail_count < 2147483648 ∧
        (lepInitial.task_state = STATE_INIT → lepInitial.reset_fail_count = 0) ∧
        (lepInitial.task_state = STATE_RUN →
          lepInitial.reset_fail_count = 0 ∨ lepInitial.reset_fail_count = 1) ∧
        (lepInitial.task_state = STATE_ERROR →
          1 ≤ lepInitial.reset_fail_count ∧
          lepInitial.reset_fail_count ≤ LEP_RESET_FAIL_RETRY_SECS) := by
    decide
  cases vospi_init_ok with
  | false =>
    obtain ⟨a1, a2, a3, a4, a5, a6, _, a8, a9⟩ := h0
    exact ⟨a1, a2, a3, a4, a5, a6, a8, a9⟩
  | true =>
    obtain ⟨a1, a2, a3, a4, a5, a6, _, a8, a9⟩ := loop_invariant inputs lepInitial h0
    exact ⟨a1, a2, a3, a4, a5, a6, a8, a9⟩

/-- Every path through `send_response` is one delivery attempt. -/
theorem deliveryAttempts_send_response (m : SendState) (net : NetOutcome) (n : Nat) :
    deliveryAttempts (send_response m net n).2 = 1 := by
  unfold send_response socket_connect http_get
  split_ifs <;> simp [deliveryAttempts, List.countP_cons]

/-- The function `handle_notifications` never clears a flag. -/
theorem handle_notifications_keeps (m : SendState) (n : Option Nat) :
    (m.got_image_0 = true → (handle_notifications m n).1.got_image_0 = true) ∧
    (m.got_image_1 = true → (handle_notifications m n).1.got_image_1 = true) := by
  unfold handle_notifications
  split
  · constructor <;> intro h <;> simp [h]
  · exact ⟨id, id⟩

/-- A recorded flag survives the loop of `send_task` until its slot is
copied. -/
theorem send_loop_flag_kept (P : Nat) (inputs : List SendInput) :
    ∀ m : SendState,
      (m.got_image_0 = true →
        (send_task_loop P m inputs).1.got_image_0 = true ∨
        (0 : Int) ∈ slotsCopied (send_task_loop P m inputs).2) ∧
      (m.got_image_1 = true →
        (send_task_loop P m inputs).1.got_image_1 = true ∨
        (1 : Int) ∈ slotsCopied (send_task_loop P m inputs).2) := by
  induction inputs with
  | nil => intro m; exact ⟨fun h => Or.inl h, fun h => Or.inl h⟩
  | cons i rest ih =>
    intro m
    obtain ⟨k0, k1⟩ := handle_notifications_keeps m i.notify
    obtain ⟨_, a2, _, _, _, a6⟩ := send_task_step_mem P m i
    obtain ⟨b0, b1⟩ := ih (send_task_step P m i).1
    simp only [send_task_loop, slotsCopied_append, List.mem_append]
    constructor
    · intro h
      right; left
      rw [a6, if_pos (k0 h)]
      simp
    · intro h
      have h1 := k1 h
      cases h0 : (handle_notifications m i.notify).1.got_image_0
      · right; left
        rw [a6, h0, h1]
        simp
      · have : (send_task_step P m i).1.got_image_1 = true := by rw [a2, h0, h1]; rfl
        rcases b1 this with h | h
        · exact Or.inl h
        · exact Or.inr (Or.inr h)

set_option maxRecDepth 100000 in
/-- C1, as stated, fails: from `Run` with all counters zero, 360 consecutive
incomplete attempts are 10 resynchronization failures (10 pauses), and after
them `lepton_task` has made no transition to `ReInit` (the claim says exactly
one); `sync_fail_count` has only just reached the limit. -/
theorem c1_ten_failures_no_reinit :
    resyncPauses (lepton_task_loop lepRunZero (List.replicate 360 incompleteAttempt)).2 = 10 ∧
    transitionsInto STATE_RE_INIT
      (lepton_task_states lepRunZero (List.replicate 360 incompleteAttempt)) = 0 ∧
    ¬ transitionsInto STATE_RE_INIT
      (lepton_task_states lepRunZero (List.replicate 360 incompleteAttempt)) = 1 ∧
    (lepton_task_loop lepRunZero (List.replicate 360 incompleteAttempt)).1 =
      { task_state := STATE_RUN, rsp_buf_index := 0, vsync_count := 0,
        sync_fail_count := 10, reset_fail_count := 0 } := by
  decide

/-- C1, amended: from `Run` with all counters zero, when every segment attempt
is incomplete and `lepton_init` always succeeds, after 397 iterations (396
incomplete attempts, which are 11 resynchronization failures, and the `ReInit`
iteration they lead to) `lepton_task` has paused 11 times, has made exactly
one transition to `ReInit` and is back in `Run`, with `reset_fail_count` at
the marker value 1. -/
theorem c1_eleven_failures_one_reinit (s : LepState) (inputs : List LepInput)
    (hs : s.task_state = STATE_RUN) (hv : s.vsync_count = 0)
    (hc : s.sync_fail_count = 0) (hr : s.reset_fail_count = 0)
    (hlen : inputs.length = 397)
    (hin : ∀ i ∈ inputs, i.vospi_transfer_segment = false ∧ i.lepton_init = true) :
    resyncPauses (lepton_task_loop s inputs).2 = 11 ∧
    transitionsInto STATE_RE_INIT (lepton_task_states s inputs) = 1 ∧
    (lepton_task_loop s inputs).1.task_state = STATE_RUN ∧
    (lepton_task_loop s inputs).1.reset_fail_count = 1 ∧
    (lepton_task_loop s inputs).1.sync_fail_count = 11 := by
  have hsplit : inputs = inputs.take 395 ++ inputs.drop 395 := (List.take_append_drop 395 inputs).symm
  have hl1 : (inputs.take 395).length = 395 := by simp [hlen]
  have hl2 : (inputs.drop 395).length = 2 := by simp [hlen]
  obtain ⟨a, j, haj⟩ := List.length_eq_two.mp hl2
  have hpre : ∀ i ∈ inputs.take 395, i.vospi_transfer_segment = false :=
    fun i hi => (hin i (List.mem_of_mem_take hi)).1
  have ha : a.vospi_transfer_segment = false := by
    have : a ∈ inputs.drop 395 := by rw [haj]; simp
    exact (hin a (List.mem_of_mem_drop this)).1
  have hj : j.lepton_init = true := by
    have : j ∈ inputs.drop 395 := by rw [haj]; simp
    exact (hin j (List.mem_of_mem_drop this)).2
  obtain ⟨b1, b2, b3, b4, b5, b6, b7, b8, b9⟩ :=
    run_incompletes (inputs.take 395) s hs hpre (by omega) (by omega) (by omega)
      (by rw [hl1]; omega)
  rw [hl1] at b6
  have hv' : (lepton_task_loop s (inputs.take 395)).1.vsync_count = 35 := by omega
  have hc' : (lepton_task_loop s (inputs.take 395)).1.sync_fail_count = 10 := by omega
  have hr' : (lepton_task_loop s (inputs.take 395)).1.reset_fail_count = 0 := by omega
  have hp : resyncPauses (lepton_task_loop s (inputs.take 395)).2 = 10 := by omega
  have e1 := step_run_escalate_first _ a b1 ha hv' hc' hr'
  have e2 := step_reinit_ok (lepton_task_step (lepton_task_loop s (inputs.take 395)).1 a).1 j
    (by rw [e1]) hj
  rw [e1] at e2
  rw [hsplit, haj, lepton_task_loop_append, transitionsInto_states_append]
  simp only [lepton_task_loop, lepton_task_states, transitionsInto, resyncPauses_append, hp,
    b9, b1, e2, e1, resyncPauses_vsyncWait]
  simp [resyncPauses, isResyncPause, STATE_RUN, STATE_RE_INIT]

/-- Witness of `c1_eleven_failures_one_reinit`. -/
theorem c1_eleven_failures_one_reinit_witness :
    resyncPauses (lepton_task_loop lepRunZero (List.replicate 397 incompleteAttempt)).2 = 11 ∧
    transitionsInto STATE_RE_INIT
      (lepton_task_states lepRunZero (List.replicate 397 incompleteAttempt)) = 1 ∧
    (lepton_task_loop lepRunZero (List.replicate 397 incompleteAttempt)).1.task_state
      = STATE_RUN ∧
    (lepton_task_loop lepRunZero (List.replicate 397 incompleteAttempt)).1.reset_fail_count
      = 1 ∧
    (lepton_task_loop lepRunZero (List.replicate 397 incompleteAttempt)).1.sync_fail_count
      = 11 :=
  c1_eleven_failures_one_reinit lepRunZero (List.replicate 397 incompleteAttempt)
    rfl rfl rfl rfl (List.length_replicate _ _)
    (by intro i hi; rw [List.eq_of_mem_replicate hi]; exact ⟨rfl, rfl⟩)

set_option maxRecDepth 1000000 in
/-- C2, the code at the failing input: from `Run` with all counters zero and
only incomplete attempts, the fault limit is reached at attempt 396, the
`ReInit` iteration succeeds (back in `Run` after 397 iterations with
`sync_fail_count = 11` and `reset_fail_count = 1`), and after 396 further
incomplete attempts (11 more resynchronization failures, no completed frame)
the task is still in `Run`: it never entered `Error`, `reset_fail_count` is
still the marker 1 and `sync_fail_count` has moved on to 22. -/
theorem c2_second_escalation_missed :
    (lepton_task_loop lepRunZero (List.replicate 397 incompleteAttempt)).1 =
      { task_state := STATE_RUN, rsp_buf_index := 0, vsync_count := 0,
        sync_fail_count := 11, reset_fail_count := 1 } ∧
    (lepton_task_loop lepRunZero (List.replicate 793 incompleteAttempt)).1 =
      { task_state := STATE_RUN, rsp_buf_index := 0, vsync_count := 0,
        sync_fail_count := 22, reset_fail_count := 1 } ∧
    resyncPauses (lepton_task_loop lepRunZero (List.replicate 793 incompleteAttempt)).2 = 22 ∧
    transitionsInto STATE_RE_INIT
      (lepton_task_states lepRunZero (List.replicate 793 incompleteAttempt)) = 1 ∧
    transitionsInto STATE_ERROR
      (lepton_task_states lepRunZero (List.replicate 793 incompleteAttempt)) = 0 := by
  decide

/-- C3, as stated, fails: with both flags pending at the poll, the iteration
copies and delivers slot 0 only. Its last call is the 20 ms sleep, no copy of
slot 1 was made, `got_image_1` is still set, and slot 1 is copied only in the
next iteration, after the sleep and a second notification poll. -/
theorem c3_one_slot_per_iteration :
    (send_task_step 2 sendIdle bothPending).2 =
      [Action.xTaskNotifyWait,
       Action.xSemaphoreTake 0, Action.memcpy 0 4, Action.xSemaphoreGive 0,
       Action.inet_aton, Action.socket true, Action.connect 5,
       Action.esp_log LogLevel.error "Successfully connected to server",
       Action.getsockopt 5,
       Action.http_get,
       Action.esp_log LogLevel.info "HTTP GET Status = %d, content_length = %d",
       Action.send 5 4, Action.close 5,
       Action.esp_log LogLevel.error "Image sent to server",
       Action.vTaskDelay 20] ∧
    slotsCopied (send_task_step 2 sendIdle bothPending).2 = [0] ∧
    (send_task_step 2 sendIdle bothPending).1.got_image_1 = true ∧
    (send_task_step 2 sendIdle bothPending).1.send_img_buffer = [11, 12] ∧
    slotsCopied
      (send_task_loop 2 sendIdle [bothPending, { notify := none, net := netAllOk }]).2
      = [0, 1] := by
  refine ⟨rfl, rfl, rfl, rfl, rfl⟩

/-- C3, amended: when both slot-ready flags are pending at the poll (and
`LEP_NUM_PIXELS` is positive), that iteration copies and delivers slot 0 only:
its calls are the poll, take, `memcpy` and give of slot 0, one `send_response`
of the scratch buffer holding the image of slot 0, and the 20 ms sleep;
afterwards `got_image_0` is clear and `got_image_1` is still set. Slot 1 is
copied and delivered by the next iteration, after that sleep and a further
poll, when the further poll brings no new slot-0 flag. -/
theorem c3_both_pending (P : Nat) (hP : 0 < P) (m : SendState) (i : SendInput) (v : Nat)
    (hv : i.notify = some v)
    (h0 : Notification v RSP_NOTIFY_LEP_FRAME_MASK_0 = true)
    (h1 : Notification v RSP_NOTIFY_LEP_FRAME_MASK_1 = true) :
    (∃ m', (send_task_step P m i).2 =
        [Action.xTaskNotifyWait, Action.xSemaphoreTake 0, Action.memcpy 0 (P * 2),
         Action.xSemaphoreGive 0]
          ++ (send_response m' i.net (P * 2)).2
          ++ [Action.vTaskDelay RSP_TASK_SLEEP_MSEC] ∧
      m'.send_img_buffer = m.lep_buffer_0) ∧
    slotsCopied (send_task_step P m i).2 = [0] ∧
    (send_task_step P m i).1.got_image_0 = false ∧
    (send_task_step P m i).1.got_image_1 = true ∧
    (∀ j : SendInput,
      (∀ w, j.notify = some w → Notification w RSP_NOTIFY_LEP_FRAME_MASK_0 = false) →
      (∃ m', (send_task_step P (send_task_step P m i).1 j).2 =
          [Action.xTaskNotifyWait, Action.xSemaphoreTake 1, Action.memcpy 1 (P * 2),
           Action.xSemaphoreGive 1]
            ++ (send_response m' j.net (P * 2)).2
            ++ [Action.vTaskDelay RSP_TASK_SLEEP_MSEC] ∧
        m'.send_img_buffer = (send_task_step P m i).1.lep_buffer_1) ∧
      slotsCopied (send_task_step P (send_task_step P m i).1 j).2 = [1] ∧
      (send_task_step P (send_task_step P m i).1 j).1.got_image_1 = false) := by
  have g0 : (handle_notifications m i.notify).1.got_image_0 = true := by
    simp [handle_notifications, hv, h0]
  have g1 : (handle_notifications m i.notify).1.got_image_1 = true := by
    simp [handle_notifications, hv, h1]
  obtain ⟨a1, a2, a3, a4, _⟩ := send_task_step_slot0 P hP m i g0
  rw [g1] at a4
  refine ⟨a1, a2, a3, a4, ?_⟩
  intro j hj
  have k0 : (handle_notifications (send_task_step P m i).1 j.notify).1.got_image_0 = false := by
    cases hn : j.notify with
    | none => simp [handle_notifications, a3]
    | some w => simp [handle_notifications, a3, hj w hn]
  have k1 : (handle_notifications (send_task_step P m i).1 j.notify).1.got_image_1 = true := by
    cases hn : j.notify with
    | none => simp [handle_notifications, a4]
    | some w => simp [handle_notifications, a4]
  obtain ⟨b1, b2, _, b4, _⟩ := send_task_step_slot1 P hP (send_task_step P m i).1 j k0 k1
  exact ⟨b1, b2, b4⟩

/-- Witness of `c3_both_pending`: the notification word 0x30, two-pixel images. -/
theorem c3_both_pending_witness :
    slotsCopied (send_task_step 2 sendIdle bothPending).2 = [0] ∧
    (send_task_step 2 sendIdle bothPending).1.got_image_0 = false ∧
    (send_task_step 2 sendIdle bothPending).1.got_image_1 = true :=
  ⟨(c3_both_pending 2 (by decide) sendIdle bothPending 0x30 rfl rfl rfl).2.1,
   (c3_both_pending 2 (by decide) sendIdle bothPending 0x30 rfl rfl rfl).2.2.1,
   (c3_both_pending 2 (by decide) sendIdle bothPending 0x30 rfl rfl rfl).2.2.2.1⟩

set_option maxRecDepth 100000 in
/-- C4, as stated, fails: from `Run` with all counters zero, 35 incomplete
attempts followed by one completed frame produce no resynchronization pause
at all (the claim says exactly one). -/
theorem c4_no_pause_at_35 :
    resyncPauses
      (lepton_task_loop lepRunZero
        (List.replicate 35 incompleteAttempt ++ [completedFrame])).2 = 0 ∧
    ¬ resyncPauses
      (lepton_task_loop lepRunZero
        (List.replicate 35 incompleteAttempt ++ [completedFrame])).2 = 1 := by
  decide

/-- C4, amended: from `Run` with all counters zero, 35 consecutive incomplete
attempts followed by one completed frame produce no resynchronization pause
and no transition to `ReInit`; the task is still in `Run`, all counters are
zero again and the one frame went to the slot that was next (this holds
whatever `reset_fail_count` was at the start). -/
theorem c4_scenario_a (s : LepState) (pre : List LepInput) (j : LepInput)
    (hs : s.task_state = STATE_RUN) (hv : s.vsync_count = 0)
    (hc : s.sync_fail_count = 0)
    (hlen : pre.length = 35)
    (hpre : ∀ i ∈ pre, i.vospi_transfer_segment = false)
    (hj : j.vospi_transfer_segment = true) :
    resyncPauses (lepton_task_loop s (pre ++ [j])).2 = 0 ∧
    transitionsInto STATE_RE_INIT (lepton_task_states s (pre ++ [j])) = 0 ∧
    (lepton_task_loop s (pre ++ [j])).1.task_state = STATE_RUN ∧
    (lepton_task_loop s (pre ++ [j])).1.vsync_count = 0 ∧
    (lepton_task_loop s (pre ++ [j])).1.sync_fail_count = 0 ∧
    (lepton_task_loop s (pre ++ [j])).1.reset_fail_count = 0 ∧
    framesWritten (lepton_task_loop s (pre ++ [j])).2 = [s.rsp_buf_index] := by
  obtain ⟨b1, b2, b3, b4, b5, b6, b7, b8, b9⟩ :=
    run_incompletes pre s hs hpre (by omega) (by omega) (by omega) (by rw [hlen]; omega)
  rw [hlen] at b6
  have hp : resyncPauses (lepton_task_loop s pre).2 = 0 := by omega
  obtain ⟨c1, c2, c3⟩ := step_run_complete (lepton_task_loop s pre).1 j b1 hj
  rw [lepton_task_loop_append, transitionsInto_states_append]
  simp only [lepton_task_loop, lepton_task_states, transitionsInto, resyncPauses_append,
    framesWritten_append, hp, b9, b8, c1, c2, c3, b2]
  simp [resyncPauses, framesWritten, b1, STATE_RUN, STATE_RE_INIT]

/-- Witness of `c4_scenario_a`. -/
theorem c4_scenario_a_witness :
    resyncPauses
      (lepton_task_loop lepRunZero (List.replicate 35 incompleteAttempt ++ [completedFrame])).2
      = 0 ∧
    transitionsInto STATE_RE_INIT
      (lepton_task_states lepRunZero (List.replicate 35 incompleteAttempt ++ [completedFrame]))
      = 0 ∧
    (lepton_task_loop lepRunZero
      (List.replicate 35 incompleteAttempt ++ [completedFrame])).1.task_state = STATE_RUN ∧
    (lepton_task_loop lepRunZero
      (List.replicate 35 incompleteAttempt ++ [completedFrame])).1.vsync_count = 0 ∧
    (lepton_task_loop lepRunZero
      (List.replicate 35 incompleteAttempt ++ [completedFrame])).1.sync_fail_count = 0 ∧
    (lepton_task_loop lepRunZero
      (List.replicate 35 incompleteAttempt ++ [completedFrame])).1.reset_fail_count = 0 ∧
    framesWritten
      (lepton_task_loop lepRunZero (List.replicate 35 incompleteAttempt ++ [completedFrame])).2
      = [lepRunZero.rsp_buf_index] :=
  c4_scenario_a lepRunZero (List.replicate 35 incompleteAttempt) completedFrame
    rfl rfl rfl (List.length_replicate _ _)
    (by intro i hi; rw [List.eq_of_mem_replicate hi]; rfl) rfl

/-- C5: counting from 0 at task start, the `N`-th frame that `lepton_task`
extracts with `vospi_get_frame` goes to `lep_buffer[N mod 2]`, for every
sequence of outcomes of `lepton_init` and `vospi_transfer_segment`; and an
iteration that does not complete a frame (an incomplete attempt, with or
without resynchronization pause, or an iteration in `Init`, `ReInit`, `Error`)
writes no frame and leaves `rsp_buf_index` unchanged, while an iteration that
completes a frame writes exactly the slot `rsp_buf_index`. -/
theorem c5_slot_alternation (vospi_init_ok : Bool) (inputs : List LepInput) :
    (∀ (N : Nat) (slot : Int),
      (framesWritten (lepton_task vospi_init_ok inputs).2)[N]? = some slot →
      slot = (N : Int) % 2) ∧
    (∀ (s : LepState) (i : LepInput),
      ¬ (s.task_state = STATE_RUN ∧ i.vospi_transfer_segment = true) →
      framesWritten (lepton_task_step s i).2 = [] ∧
      (lepton_task_step s i).1.rsp_buf_index = s.rsp_buf_index) ∧
    (∀ (s : LepState) (i : LepInput),
      s.task_state = STATE_RUN ∧ i.vospi_transfer_segment = true →
      framesWritten (lepton_task_step s i).2 = [s.rsp_buf_index]) := by
  refine ⟨?_, fun s i h => (step_frames s i).2 h, fun s i h => ((step_frames s i).1 h).1⟩
  intro N slot h
  rw [framesWritten_lepton_task] at h
  cases vospi_init_ok with
  | false => simp at h
  | true =>
    simp only [if_true] at h
    have := framesWritten_loop_alternate inputs lepInitial N slot (Or.inl rfl) h
    simpa [lepInitial] using this

/-- Witness of `c5_slot_alternation`: `Init`, then three completed frames with
a failed attempt in between; the third frame (N = 2) goes to slot 0. -/
theorem c5_slot_alternation_witness :
    (framesWritten (lepton_task true
      [completedFrame, completedFrame, completedFrame, incompleteAttempt,
       completedFrame]).2)[2]? = some 0 ∧
    (0 : Int) = ((2 : Nat) : Int) % 2 :=
  ⟨by decide,
   (c5_slot_alternation true
      [completedFrame, completedFrame, completedFrame, incompleteAttempt,
       completedFrame]).1 2 0 (by decide)⟩

/-- C6: for every start state and every sequence of outcomes, whenever
`lepton_task` is in `Error` at the head of an iteration, it is in `Error` or in
`ReInit` at the head of the next one, so never in `Run` (nor `Init`). -/
theorem c6_error_successors (s : LepState) (inputs : List LepInput) (k : Nat)
    (a b : LepState)
    (ha : (lepton_task_states s inputs)[k]? = some a)
    (hb : (lepton_task_states s inputs)[k + 1]? = some b)
    (he : a.task_state = STATE_ERROR) :
    (b.task_state = STATE_ERROR ∨ b.task_state = STATE_RE_INIT) ∧
    b.task_state ≠ STATE_RUN ∧ b.task_state ≠ STATE_INIT := by
  obtain ⟨i, hi⟩ := lepton_task_states_succ inputs s k a b ha hb
  rw [hi, step_error a i he]
  by_cases h : wrapInt32 (a.reset_fail_count - 1) = 0
  · simp [h, STATE_RUN, STATE_INIT, STATE_RE_INIT]
  · simp [h, he, STATE_RUN, STATE_INIT, STATE_ERROR]

/-- Witness of `c6_error_successors`: `lepton_init` fails at start-up; the task
is in `Error` at the head of the second iteration and still at the third. -/
theorem c6_error_successors_witness :
    ((lepton_task_step
        (lepton_task_step lepInitial
          { lepton_init := false, vsync_low_polls := 0, vospi_transfer_segment := true }).1
        completedFrame).1.task_state = STATE_ERROR
      ∨ (lepton_task_step
        (lepton_task_step lepInitial
          { lepton_init := false, vsync_low_polls := 0, vospi_transfer_segment := true }).1
        completedFrame).1.task_state = STATE_RE_INIT) ∧
    (lepton_task_step
        (lepton_task_step lepInitial
          { lepton_init := false, vsync_low_polls := 0, vospi_transfer_segment := true }).1
        completedFrame).1.task_state ≠ STATE_RUN ∧
    (lepton_task_step
        (lepton_task_step lepInitial
          { lepton_init := false, vsync_low_polls := 0, vospi_transfer_segment := true }).1
        completedFrame).1.task_state ≠ STATE_INIT :=
  c6_error_successors lepInitial
    [{ lepton_init := false, vsync_low_polls := 0, vospi_transfer_segment := true },
     completedFrame, completedFrame] 1 _ _ rfl rfl rfl

/-- C7: for every sequence of outcomes from task start, at an iteration that
takes `lepton_task` from `Run` to `ReInit` the resync-failure counter
`sync_fail_count` stands at `LEP_SYNC_FAIL_FAULT_LIMIT`, `reset_fail_count` is
0, and at least `LEP_SYNC_FAIL_FAULT_LIMIT` resynchronization pauses have
occurred since the last completed frame (or since task start), not counting
the pause of the escalating iteration itself. -/
theorem c7_reinit_only_at_limit (vospi_init_ok : Bool) (pre : List LepInput)
    (i : LepInput)
    (hrun : (lepton_task vospi_init_ok pre).1.task_state = STATE_RUN)
    (hre : (lepton_task_step (lepton_task vospi_init_ok pre).1 i).1.task_state
      = STATE_RE_INIT) :
    (lepton_task vospi_init_ok pre).1.sync_fail_count = LEP_SYNC_FAIL_FAULT_LIMIT ∧
    (lepton_task vospi_init_ok pre).1.reset_fail_count = 0 ∧
    LEP_SYNC_FAIL_FAULT_LIMIT
      ≤ (resyncFailuresSinceFrame 0 (lepton_task vospi_init_ok pre).2 : Int) ∧
    resyncFailuresSinceFrame 0
        ((lepton_task vospi_init_ok pre).2
          ++ (lepton_task_step (lepton_task vospi_init_ok pre).1 i).2)
      = resyncFailuresSinceFrame 0 (lepton_task vospi_init_ok pre).2 + 1 := by
  obtain ⟨h1, h2, h3, h4⟩ := step_run_to_reinit _ i hrun hre
  cases vospi_init_ok with
  | false => simp [lepton_task, lepInitial, STATE_INIT, STATE_RUN] at hrun
  | true =>
    have hinv := loop_sync_fail_count pre lepInitial 0 (by decide)
    have hpro : ∀ tr, resyncFailuresSinceFrame 0 (leptonPrologue ++ tr)
        = resyncFailuresSinceFrame 0 tr := by
      intro tr
      simp [leptonPrologue, resyncFailuresSinceFrame, sinceFrameStep]
    simp only [lepton_task, if_true] at h1 h2 h3 h4 hrun ⊢
    rw [hpro]
    rw [h3] at hinv
    refine ⟨h3, h4, ?_, ?_⟩
    · simp only [LEP_SYNC_FAIL_FAULT_LIMIT, wrapInt32] at hinv ⊢
      omega
    · rw [List.append_assoc, hpro, resyncFailuresSinceFrame_append]
      simp [lepton_task_step, hrun, h1, h2, h3, h4, STATE_INIT, STATE_RUN,
        resyncFailuresSinceFrame_append, resyncFailuresSinceFrame_vsyncWait]
      simp [resyncFailuresSinceFrame, sinceFrameStep]

set_option maxRecDepth 100000 in
/-- Witness of `c7_reinit_only_at_limit`: a successful `Init`, then 396
incomplete attempts; the last one takes the task from `Run` to `ReInit`. -/
theorem c7_reinit_only_at_limit_witness :
    (lepton_task true
      (completedFrame :: List.replicate 395 incompleteAttempt)).1.sync_fail_count
      = LEP_SYNC_FAIL_FAULT_LIMIT ∧
    (lepton_task true
      (completedFrame :: List.replicate 395 incompleteAttempt)).1.reset_fail_count = 0 ∧
    LEP_SYNC_FAIL_FAULT_LIMIT
      ≤ (resyncFailuresSinceFrame 0
          (lepton_task true (completedFrame :: List.replicate 395 incompleteAttempt)).2 : Int) ∧
    resyncFailuresSinceFrame 0
        ((lepton_task true (completedFrame :: List.replicate 395 incompleteAttempt)).2
          ++ (lepton_task_step
                (lepton_task true
                  (completedFrame :: List.replicate 395 incompleteAttempt)).1
                incompleteAttempt).2)
      = resyncFailuresSinceFrame 0
          (lepton_task true (completedFrame :: List.replicate 395 incompleteAttempt)).2 + 1 :=
  c7_reinit_only_at_limit true (completedFrame :: List.replicate 395 incompleteAttempt)
    incompleteAttempt (by decide) (by decide)

/-- C8: whenever an iteration takes `lepton_task` into `Error`, the timer
`reset_fail_count` is `LEP_RESET_FAIL_RETRY_SECS`; after any `k < 60` further
iterations the task is still in `Error` with `reset_fail_count = 60 - k`, each
of these iterations doing nothing but the one-second sleep; and after exactly
60 further iterations it is in `ReInit` with the timer at zero. The outcomes
offered by the environment play no role. -/
theorem c8_error_cooldown (s : LepState) (i : LepInput) (inputs : List LepInput)
    (hs : s.task_state ≠ STATE_ERROR)
    (he : (lepton_task_step s i).1.task_state = STATE_ERROR) :
    (lepton_task_step s i).1.reset_fail_count = LEP_RESET_FAIL_RETRY_SECS ∧
    ((inputs.length : Int) < LEP_RESET_FAIL_RETRY_SECS →
      (lepton_task_loop (lepton_task_step s i).1 inputs).1.task_state = STATE_ERROR ∧
      (lepton_task_loop (lepton_task_step s i).1 inputs).1.reset_fail_count
        = LEP_RESET_FAIL_RETRY_SECS - inputs.length) ∧
    ((inputs.length : Int) = LEP_RESET_FAIL_RETRY_SECS →
      (lepton_task_loop (lepton_task_step s i).1 inputs).1.task_state = STATE_RE_INIT ∧
      (lepton_task_loop (lepton_task_step s i).1 inputs).1.reset_fail_count = 0) ∧
    ((inputs.length : Int) ≤ LEP_RESET_FAIL_RETRY_SECS →
      (lepton_task_loop (lepton_task_step s i).1 inputs).2
        = List.replicate inputs.length (Action.vTaskDelay 1000)) := by
  have h60 := step_into_error s i hs he
  have hlt : ∀ l : List LepInput, (l.length : Int) < LEP_RESET_FAIL_RETRY_SECS →
      (lepton_task_loop (lepton_task_step s i).1 l).1
        = { (lepton_task_step s i).1 with
            reset_fail_count := LEP_RESET_FAIL_RETRY_SECS - l.length } ∧
      (lepton_task_loop (lepton_task_step s i).1 l).2
        = List.replicate l.length (Action.vTaskDelay 1000) := by
    intro l hl
    have := error_countdown l (lepton_task_step s i).1 he (by rw [h60]; exact hl)
      (by rw [h60]; decide)
    rw [h60] at this
    exact this
  have heq : (inputs.length : Int) = LEP_RESET_FAIL_RETRY_SECS →
      (lepton_task_loop (lepton_task_step s i).1 inputs).1.task_state = STATE_RE_INIT ∧
      (lepton_task_loop (lepton_task_step s i).1 inputs).1.reset_fail_count = 0 ∧
      (lepton_task_loop (lepton_task_step s i).1 inputs).2
        = List.replicate inputs.length (Action.vTaskDelay 1000) := by
    intro hl
    simp only [LEP_RESET_FAIL_RETRY_SECS] at hl
    have hlen : inputs.length = 59 + 1 := by omega
    have hsplit : inputs = inputs.take 59 ++ inputs.drop 59 :=
      (List.take_append_drop 59 inputs).symm
    have hl1 : (inputs.take 59).length = 59 := by simp [hlen]
    have hl2 : (inputs.drop 59).length = 1 := by simp [hlen]
    obtain ⟨j, hj⟩ := List.length_eq_one.mp hl2
    obtain ⟨c1, c2⟩ := hlt (inputs.take 59) (by rw [hl1]; decide)
    rw [hl1] at c1 c2
    have hstep := step_error (lepton_task_loop (lepton_task_step s i).1 (inputs.take 59)).1 j
      (by rw [c1]; exact he)
    rw [c1] at hstep
    have hz : wrapInt32 (LEP_RESET_FAIL_RETRY_SECS - ((59 : Nat) : Int) - 1) = 0 := by decide
    simp only [hz, if_true] at hstep
    rw [hlen, hsplit, hj, lepton_task_loop_append]
    simp only [lepton_task_loop, c1, c2, hstep, List.append_nil]
    exact ⟨trivial, trivial, rfl⟩
  refine ⟨h60, ?_, fun hl => ⟨(heq hl).1, (heq hl).2.1⟩, ?_⟩
  · intro hl
    obtain ⟨c1, _⟩ := hlt inputs hl
    rw [c1]
    exact ⟨he, rfl⟩
  · intro hl
    rcases lt_or_eq_of_le hl with h | h
    · exact (hlt inputs h).2
    · exact (heq h).2.2

/-- Witness of `c8_error_cooldown`: `lepton_init` fails at start-up, and 60
iterations later the task is in `ReInit`. -/
theorem c8_error_cooldown_witness :
    (lepton_task_loop
      (lepton_task_step lepInitial
        { lepton_init := false, vsync_low_polls := 0, vospi_transfer_segment := false }).1
      (List.replicate 60 completedFrame)).1.task_state = STATE_RE_INIT :=
  ((c8_error_cooldown lepInitial
      { lepton_init := false, vsync_low_polls := 0, vospi_transfer_segment := false }
      (List.replicate 60 completedFrame) (by decide) (by decide)).2.2.1 (by decide)).1

/-- C9: in `Init` and in `ReInit` the result of `lepton_init` decides the next
state. On success the next state is `Run`, from `ReInit` with
`reset_fail_count = 1` and from `Init` with `reset_fail_count` unchanged; on
failure the next state is `Error` with
`reset_fail_count = LEP_RESET_FAIL_RETRY_SECS`. -/
theorem c9_init_outcome (s : LepState) (i : LepInput)
    (h : s.task_state = STATE_INIT ∨ s.task_state = STATE_RE_INIT) :
    (i.lepton_init = true →
      (lepton_task_step s i).1.task_state = STATE_RUN ∧
      (s.task_state = STATE_RE_INIT → (lepton_task_step s i).1.reset_fail_count = 1) ∧
      (s.task_state = STATE_INIT →
        (lepton_task_step s i).1.reset_fail_count = s.reset_fail_count)) ∧
    (i.lepton_init = false →
      (lepton_task_step s i).1.task_state = STATE_ERROR ∧
      (lepton_task_step s i).1.reset_fail_count = LEP_RESET_FAIL_RETRY_SECS) := by
  rcases h with h | h
  · constructor
    · intro hi
      simp [lepton_task_step, h, hi, STATE_INIT, STATE_RE_INIT]
    · intro hi
      simp [lepton_task_step, h, hi]
  · constructor
    · intro hi
      simp [lepton_task_step, h, hi, STATE_INIT, STATE_RE_INIT, STATE_RUN]
    · intro hi
      simp [lepton_task_step, h, hi, STATE_INIT, STATE_RE_INIT, STATE_RUN]

/-- Witness of `c9_init_outcome`: a successful `ReInit` from a state whose
timer had been counted down to zero. -/
theorem c9_init_outcome_witness :
    (lepton_task_step
      { task_state := STATE_RE_INIT, rsp_buf_index := 1, vsync_count := 0,
        sync_fail_count := 11, reset_fail_count := 0 } completedFrame).1.task_state
      = STATE_RUN ∧
    (lepton_task_step
      { task_state := STATE_RE_INIT, rsp_buf_index := 1, vsync_count := 0,
        sync_fail_count := 11, reset_fail_count := 0 } completedFrame).1.reset_fail_count
      = 1 :=
  ⟨((c9_init_outcome
      { task_state := STATE_RE_INIT, rsp_buf_index := 1, vsync_count := 0,
        sync_fail_count := 11, reset_fail_count := 0 } completedFrame
      (Or.inr rfl)).1 rfl).1,
   ((c9_init_outcome
      { task_state := STATE_RE_INIT, rsp_buf_index := 1, vsync_count := 0,
        sync_fail_count := 11, reset_fail_count := 0 } completedFrame
      (Or.inr rfl)).1 rfl).2.1 rfl⟩

/-- C10: in `Run`, an iteration whose segment attempt completes a frame ends
with `sync_fail_count`, `reset_fail_count` and `vsync_count` all zero, whatever
they were, stays in `Run`, and flips `rsp_buf_index` (0 becomes 1, anything
else becomes 0). -/
theorem c10_frame_resets_counters (s : LepState) (i : LepInput)
    (hs : s.task_state = STATE_RUN) (hi : i.vospi_transfer_segment = true) :
    (lepton_task_step s i).1.sync_fail_count = 0 ∧
    (lepton_task_step s i).1.reset_fail_count = 0 ∧
    (lepton_task_step s i).1.vsync_count = 0 ∧
    (lepton_task_step s i).1.task_state = STATE_RUN ∧
    (s.rsp_buf_index = 0 → (lepton_task_step s i).1.rsp_buf_index = 1) ∧
    (s.rsp_buf_index ≠ 0 → (lepton_task_step s i).1.rsp_buf_index = 0) ∧
    (s.rsp_buf_index = 0 ∨ s.rsp_buf_index = 1 →
      (lepton_task_step s i).1.rsp_buf_index = 1 - s.rsp_buf_index) := by
  by_cases h0 : s.rsp_buf_index = 0
  · simp [lepton_task_step, hs, hi, h0, STATE_INIT, STATE_RUN]
  · simp [lepton_task_step, hs, hi, h0, STATE_INIT, STATE_RUN]
    intro h1
    rw [h1]
    rfl

/-- Witness of `c10_frame_resets_counters`: a completed frame right after a
recovery, with slot 1 next. -/
theorem c10_frame_resets_counters_witness :
    (lepton_task_step
      { task_state := STATE_RUN, rsp_buf_index := 1, vsync_count := 17,
        sync_fail_count := 11, reset_fail_count := 1 } completedFrame).1.sync_fail_count
      = 0 ∧
    (lepton_task_step
      { task_state := STATE_RUN, rsp_buf_index := 1, vsync_count := 17,
        sync_fail_count := 11, reset_fail_count := 1 } completedFrame).1.reset_fail_count
      = 0 ∧
    (lepton_task_step
      { task_state := STATE_RUN, rsp_buf_index := 1, vsync_count := 17,
        sync_fail_count := 11, reset_fail_count := 1 } completedFrame).1.rsp_buf_index
      = 0 :=
  ⟨(c10_frame_resets_counters
      { task_state := STATE_RUN, rsp_buf_index := 1, vsync_count := 17,
        sync_fail_count := 11, reset_fail_count := 1 } completedFrame rfl rfl).1,
   (c10_frame_resets_counters
      { task_state := STATE_RUN, rsp_buf_index := 1, vsync_count := 17,
        sync_fail_count := 11, reset_fail_count := 1 } completedFrame rfl rfl).2.1,
   (c10_frame_resets_counters
      { task_state := STATE_RUN, rsp_buf_index := 1, vsync_count := 17,
        sync_fail_count := 11, reset_fail_count := 1 } completedFrame
      rfl rfl).2.2.2.2.2.1 (by decide)⟩

/-- C11: in every run of `lepton_task` from task start the calls
`xSemaphoreTake`, `vospi_get_frame`, `xSemaphoreGive` and `xTaskNotify` occur
only in complete hand-offs: take of slot `i`, `vospi_get_frame` into slot `i`,
give of slot `i`, then `xTaskNotify` with the flag of slot `i`
(`RSP_NOTIFY_LEP_FRAME_MASK_0` for 0, `RSP_NOTIFY_LEP_FRAME_MASK_1` for 1),
with no other call in between. And a `Run` iteration that completes a frame
with next-slot index `i` in the two slots makes, after the wait for the
frame-start line and the segment transfer, exactly these four calls for
slot `i`. -/
theorem c11_handoff_order (vospi_init_ok : Bool) (inputs : List LepInput) :
    handoffCheck HandoffPhase.idle (lepton_task vospi_init_ok inputs).2
      = HandoffPhase.idle ∧
    (∀ (s : LepState) (i : LepInput),
      s.task_state = STATE_RUN → i.vospi_transfer_segment = true →
      (s.rsp_buf_index = 0 ∨ s.rsp_buf_index = 1) →
      (lepton_task_step s i).2 =
        vsyncWait i.vsync_low_polls ++
          [Action.xSemaphoreTake s.rsp_buf_index,
           Action.vospi_get_frame s.rsp_buf_index,
           Action.xSemaphoreGive s.rsp_buf_index,
           Action.xTaskNotify
             (if s.rsp_buf_index = 0 then RSP_NOTIFY_LEP_FRAME_MASK_0
              else RSP_NOTIFY_LEP_FRAME_MASK_1)]) := by
  constructor
  · cases vospi_init_ok with
    | false => rfl
    | true =>
      simp only [lepton_task, if_true, handoffCheck_append]
      have hp : handoffCheck HandoffPhase.idle leptonPrologue = HandoffPhase.idle := rfl
      rw [hp]
      exact (loop_handoff inputs lepInitial (Or.inl rfl)).1
  · intro s i hs hi h
    rcases h with h | h <;>
      simp [lepton_task_step, hs, hi, h, STATE_INIT, STATE_RUN]

/-- Witness of `c11_handoff_order`: a completed frame with slot 1 next. -/
theorem c11_handoff_order_witness :
    (lepton_task_step
      { task_state := STATE_RUN, rsp_buf_index := 1, vsync_count := 3,
        sync_fail_count := 0, reset_fail_count := 0 } completedFrame).2 =
      vsyncWait 0 ++
        [Action.xSemaphoreTake 1, Action.vospi_get_frame 1, Action.xSemaphoreGive 1,
         Action.xTaskNotify RSP_NOTIFY_LEP_FRAME_MASK_1] :=
  (c11_handoff_order true []).2
    { task_state := STATE_RUN, rsp_buf_index := 1, vsync_count := 3,
      sync_fail_count := 0, reset_fail_count := 0 } completedFrame rfl rfl (Or.inr rfl)

/-- C12: on the trace of each task, for every run, a slot is written by
`lepton_task` (`vospi_get_frame`) or read by `send_task` (`memcpy`) only
between the take and the give of that slot's own mutex, and between a take
and its give the task makes no other call: no `xTaskNotify`, no `vTaskDelay`,
no `gpio_get_level`, no network call. This holds for `lepton_task` from task
start and from any values of its locals, and for `send_task` from any memory
and any `LEP_NUM_PIXELS`. -/
theorem c12_guard_discipline :
    (∀ (vospi_init_ok : Bool) (inputs : List LepInput),
      guardCheck GuardState.free (lepton_task vospi_init_ok inputs).2 = GuardState.free) ∧
    (∀ (s : LepState) (inputs : List LepInput),
      guardCheck GuardState.free (lepton_task_loop s inputs).2 = GuardState.free) ∧
    (∀ (P : Nat) (m : SendState) (inputs : List SendInput),
      guardCheck GuardState.free (send_task_loop P m inputs).2 = GuardState.free) := by
  have hl : ∀ (inputs : List LepInput) (s : LepState),
      guardCheck GuardState.free (lepton_task_loop s inputs).2 = GuardState.free := by
    intro inputs
    induction inputs with
    | nil => intro s; rfl
    | cons i rest ih =>
      intro s
      simp only [lepton_task_loop, guardCheck_append, step_guard, ih]
  refine ⟨?_, fun s inputs => hl inputs s, ?_⟩
  · intro ok inputs
    cases ok with
    | false => rfl
    | true =>
      simp only [lepton_task, if_true, guardCheck_append]
      have hp : guardCheck GuardState.free leptonPrologue = GuardState.free := rfl
      rw [hp]
      exact hl inputs lepInitial
  · intro P m inputs
    induction inputs generalizing m with
    | nil => rfl
    | cons i rest ih =>
      simp only [send_task_loop, guardCheck_append, send_step_guard, ih]

/-- C14: one iteration of `send_task`, from any memory and with any pending
notification (or none), run once with network outcome `net1` and once with
`net2`, ends with the same `got_image_0`, `got_image_1`, `send_img_buffer`
and frame-store images, and copies the same slots; the frame store is the
one the iteration started with; and the flag of the slot served (slot 0 when
`got_image_0` is recorded at the poll, else slot 1) is clear afterwards
whatever the network did. -/
theorem c14_delivery_outcome_irrelevant (P : Nat) (m : SendState) (notify : Option Nat)
    (net1 net2 : NetOutcome) :
    (send_task_step P m { notify := notify, net := net1 }).1.got_image_0
      = (send_task_step P m { notify := notify, net := net2 }).1.got_image_0 ∧
    (send_task_step P m { notify := notify, net := net1 }).1.got_image_1
      = (send_task_step P m { notify := notify, net := net2 }).1.got_image_1 ∧
    (send_task_step P m { notify := notify, net := net1 }).1.send_img_buffer
      = (send_task_step P m { notify := notify, net := net2 }).1.send_img_buffer ∧
    (send_task_step P m { notify := notify, net := net1 }).1.lep_buffer_0 = m.lep_buffer_0 ∧
    (send_task_step P m { notify := notify, net := net1 }).1.lep_buffer_1 = m.lep_buffer_1 ∧
    (send_task_step P m { notify := notify, net := net2 }).1.lep_buffer_0 = m.lep_buffer_0 ∧
    (send_task_step P m { notify := notify, net := net2 }).1.lep_buffer_1 = m.lep_buffer_1 ∧
    slotsCopied (send_task_step P m { notify := notify, net := net1 }).2
      = slotsCopied (send_task_step P m { notify := notify, net := net2 }).2 ∧
    (send_task_step P m { notify := notify, net := net1 }).1.got_image_0 = false ∧
    ((handle_notifications m notify).1.got_image_0 = false →
      (send_task_step P m { notify := notify, net := net1 }).1.got_image_1 = false) := by
  obtain ⟨a1, a2, a3, a4, a5, a6⟩ :=
    send_task_step_mem P m { notify := notify, net := net1 }
  obtain ⟨b1, b2, b3, b4, b5, b6⟩ :=
    send_task_step_mem P m { notify := notify, net := net2 }
  refine ⟨by rw [a1, b1], by rw [a2, b2], by rw [a3, b3], a4, a5, b4, b5,
    by rw [a6, b6], a1, ?_⟩
  intro h
  rw [a2]
  simp [h]

/-- Witness of `c14_delivery_outcome_irrelevant`: slot 1 alone is pending and
the connect fails; the flag is clear afterwards. -/
theorem c14_delivery_outcome_irrelevant_witness :
    (send_task_step 2 sendIdle { notify := some 0x20, net := netConnectFails }).1.got_image_1
      = false :=
  (c14_delivery_outcome_irrelevant 2 sendIdle (some 0x20) netConnectFails netAllOk).2.2.2.2.2.2.2.2.2
    rfl

set_option maxRecDepth 100000 in
/-- C15, the code at two failing inputs: when the pre-payload `http_get` fails,
and when the payload `send` fails, `socket_connect` has opened a socket
(descriptor 5) and connected it, and `send_response` returns without calling
`close` on it; the paths through the `getsockopt` error and through success
do call `close` once. -/
theorem c15_socket_left_open :
    socketOpened netHttpGetFails = true ∧
    (send_response sendIdle netHttpGetFails 4).2 =
      [Action.inet_aton, Action.socket true, Action.connect 5,
       Action.esp_log LogLevel.error "Successfully connected to server",
       Action.getsockopt 5,
       Action.http_get,
       Action.esp_log LogLevel.error "HTTP GET request failed: %s"] ∧
    closesOf 5 (send_response sendIdle netHttpGetFails 4).2 = 0 ∧
    socketOpened netSendFails = true ∧
    (send_response sendIdle netSendFails 4).2 =
      [Action.inet_aton, Action.socket true, Action.connect 5,
       Action.esp_log LogLevel.error "Successfully connected to server",
       Action.getsockopt 5,
       Action.http_get,
       Action.esp_log LogLevel.info "HTTP GET Status = %d, content_length = %d",
       Action.send 5 4,
       Action.esp_log LogLevel.error "Error connect: %s"] ∧
    closesOf 5 (send_response sendIdle netSendFails 4).2 = 0 ∧
    closesOf 5 (send_response sendIdle netConnectFails 4).2 = 1 ∧
    closesOf 5 (send_response sendIdle netAllOk 4).2 = 1 := by
  refine ⟨rfl, rfl, rfl, rfl, rfl, rfl, rfl, rfl⟩

/-- C16: `app_main` creates `send_task` and then `lepton_task` exactly when
`lepton_io_init`, `wifi_init` and `lepton_buffer_init` all return true, and
only then does it return. Otherwise it creates no task, the initialization
steps it ran are those up to and including the first one that failed, and
everything after the error log is the idle spin. -/
theorem c16_startup_failure_fatal (io_ok wifi_ok buffer_ok : Bool) (spins : Nat) :
    (tasksCreated (app_main io_ok wifi_ok buffer_ok spins).1
        = [TaskEntry.send_task, TaskEntry.lepton_task]
      ↔ (io_ok = true ∧ wifi_ok = true ∧ buffer_ok = true)) ∧
    ((app_main io_ok wifi_ok buffer_ok spins).2 = true
      ↔ (io_ok = true ∧ wifi_ok = true ∧ buffer_ok = true)) ∧
    (¬ (io_ok = true ∧ wifi_ok = true ∧ buffer_ok = true) →
      tasksCreated (app_main io_ok wifi_ok buffer_ok spins).1 = []) ∧
    initSteps (app_main io_ok wifi_ok buffer_ok spins).1
      = (if io_ok = false then [MainCall.lepton_io_init]
         else if wifi_ok = false then [MainCall.lepton_io_init, MainCall.wifi_init]
         else [MainCall.lepton_io_init, MainCall.wifi_init, MainCall.lepton_buffer_init]) ∧
    (io_ok = false →
      (app_main io_ok wifi_ok buffer_ok spins).1 =
        [MainCall.esp_log LogLevel.info "ESP32 startup", MainCall.lepton_io_init,
         MainCall.esp_log LogLevel.error "ESP32 init failed"] ++ idleSpin spins) ∧
    (io_ok = true → wifi_ok = false →
      (app_main io_ok wifi_ok buffer_ok spins).1 =
        [MainCall.esp_log LogLevel.info "ESP32 startup", MainCall.lepton_io_init,
         MainCall.wifi_init,
         MainCall.esp_log LogLevel.error "WiFi initialization failed"] ++ idleSpin spins) ∧
    (io_ok = true → wifi_ok = true → buffer_ok = false →
      (app_main io_ok wifi_ok buffer_ok spins).1 =
        [MainCall.esp_log LogLevel.info "ESP32 startup", MainCall.lepton_io_init,
         MainCall.wifi_init, MainCall.lepton_buffer_init,
         MainCall.esp_log LogLevel.error "ESP32 memory allocate failed"]
          ++ idleSpin spins) := by
  cases io_ok <;> cases wifi_ok <;> cases buffer_ok <;>
    simp [app_main, tasksCreated, initSteps, tasksCreated_idleSpin, initSteps_idleSpin]

/-- Witness of `c16_startup_failure_fatal`: `wifi_init` fails; `app_main` ran
`lepton_io_init` and `wifi_init`, then spins, and created no task. -/
theorem c16_startup_failure_fatal_witness :
    tasksCreated (app_main true false true 3).1 = [] ∧
    (app_main true false true 3).1 =
      [MainCall.esp_log LogLevel.info "ESP32 startup", MainCall.lepton_io_init,
       MainCall.wifi_init,
       MainCall.esp_log LogLevel.error "WiFi initialization failed"] ++ idleSpin 3 :=
  ⟨(c16_startup_failure_fatal true false true 3).2.2.1 (by decide),
   (c16_startup_failure_fatal true false true 3).2.2.2.2.2.1 rfl rfl⟩

/-- C17: `handle_notifications` with a drained word `v` leaves `got_image_0`
true exactly when it was true or bit 4 (value 0x10) of `v` is set, and
`got_image_1` true exactly when it was true or bit 5 (value 0x20) of `v` is
set; two words that agree on these two bits give the same result; with no
notification pending the memory is unchanged; in every case nothing but the
two flags changes. -/
theorem c17_notification_bits (m : SendState) (v : Nat) :
    (handle_notifications m (some v)).1.got_image_0 = (m.got_image_0 || v.testBit 4) ∧
    (handle_notifications m (some v)).1.got_image_1 = (m.got_image_1 || v.testBit 5) ∧
    (∀ w : Nat, w.testBit 4 = v.testBit 4 → w.testBit 5 = v.testBit 5 →
      handle_notifications m (some w) = handle_notifications m (some v)) ∧
    (handle_notifications m none).1 = m ∧
    (handle_notifications m (some v)).1 =
      { m with got_image_0 := (handle_notifications m (some v)).1.got_image_0,
               got_image_1 := (handle_notifications m (some v)).1.got_image_1 } := by
  have h0 : ∀ x : Nat, Notification x RSP_NOTIFY_LEP_FRAME_MASK_0 = x.testBit 4 :=
    fun x => Notification_two_pow x 4
  have h1 : ∀ x : Nat, Notification x RSP_NOTIFY_LEP_FRAME_MASK_1 = x.testBit 5 :=
    fun x => Notification_two_pow x 5
  refine ⟨?_, ?_, ?_, rfl, rfl⟩
  · simp only [handle_notifications, h0]
    cases m.got_image_0 <;> cases v.testBit 4 <;> rfl
  · simp only [handle_notifications, h1]
    cases m.got_image_1 <;> cases v.testBit 5 <;> rfl
  · intro w e4 e5
    simp only [handle_notifications, h0, h1, e4, e5]

/-- Witness of `c17_notification_bits`: the words 0x30 and 0xF3 agree on bits
4 and 5 and are decoded alike. -/
theorem c17_notification_bits_witness :
    handle_notifications sendIdle (some 0xF3) = handle_notifications sendIdle (some 0x30) :=
  (c17_notification_bits sendIdle 0x30).2.2.1 0xF3 (by decide) (by decide)

/-- C18: from `Run` with all counters zero and only incomplete segment
attempts, after `n ≤ 395` attempts `lepton_task` is still in `Run`, has paused
`n / 36` times (once at every 36th attempt), holds `sync_fail_count = n / 36`
and `vsync_count = n % 36`, and has made no transition to `ReInit`; after
exactly 396 attempts (the 11th resynchronization failure) it has paused 11
times and is in `ReInit`, entered on that attempt. -/
theorem c18_fault_limit_tolerated (s : LepState) (inputs : List LepInput)
    (hs : s.task_state = STATE_RUN) (hv : s.vsync_count = 0)
    (hc : s.sync_fail_count = 0) (hr : s.reset_fail_count = 0)
    (hin : ∀ i ∈ inputs, i.vospi_transfer_segment = false) :
    (inputs.length ≤ 36 * (LEP_SYNC_FAIL_FAULT_LIMIT + 1) - 1 →
      (lepton_task_loop s inputs).1.task_state = STATE_RUN ∧
      resyncPauses (lepton_task_loop s inputs).2 = inputs.length / 36 ∧
      (lepton_task_loop s inputs).1.sync_fail_count = (inputs.length / 36 : Nat) ∧
      (lepton_task_loop s inputs).1.vsync_count = (inputs.length % 36 : Nat) ∧
      transitionsInto STATE_RE_INIT (lepton_task_states s inputs) = 0) ∧
    (inputs.length = 36 * (LEP_SYNC_FAIL_FAULT_LIMIT + 1) →
      (lepton_task_loop s inputs).1.task_state = STATE_RE_INIT ∧
      resyncPauses (lepton_task_loop s inputs).2 = 11 ∧
      transitionsInto STATE_RE_INIT (lepton_task_states s inputs) = 1 ∧
      (lepton_task_loop s (inputs.take 395)).1.task_state = STATE_RUN) := by
  simp only [LEP_SYNC_FAIL_FAULT_LIMIT]
  constructor
  · intro hlen
    obtain ⟨b1, b2, b3, b4, b5, b6, b7, b8, b9⟩ :=
      run_incompletes inputs s hs hin (by omega) (by omega) (by omega) (by omega)
    refine ⟨b1, ?_, ?_, ?_, b9⟩ <;> omega
  · intro hlen
    have hlen' : inputs.length = 396 := by omega
    have hsplit : inputs = inputs.take 395 ++ inputs.drop 395 :=
      (List.take_append_drop 395 inputs).symm
    have hl1 : (inputs.take 395).length = 395 := by simp [hlen']
    have hl2 : (inputs.drop 395).length = 1 := by simp [hlen']
    obtain ⟨a, ha⟩ := List.length_eq_one.mp hl2
    have hpre : ∀ i ∈ inputs.take 395, i.vospi_transfer_segment = false :=
      fun i hi => hin i (List.mem_of_mem_take hi)
    have hai : a.vospi_transfer_segment = false := by
      have : a ∈ inputs.drop 395 := by rw [ha]; simp
      exact hin a (List.mem_of_mem_drop this)
    obtain ⟨b1, b2, b3, b4, b5, b6, b7, b8, b9⟩ :=
      run_incompletes (inputs.take 395) s hs hpre (by omega) (by omega) (by omega)
        (by rw [hl1]; omega)
    rw [hl1] at b6
    have hv' : (lepton_task_loop s (inputs.take 395)).1.vsync_count = 35 := by omega
    have hc' : (lepton_task_loop s (inputs.take 395)).1.sync_fail_count = 10 := by omega
    have hr' : (lepton_task_loop s (inputs.take 395)).1.reset_fail_count = 0 := by omega
    have hp : resyncPauses (lepton_task_loop s (inputs.take 395)).2 = 10 := by omega
    have e1 := step_run_escalate_first _ a b1 hai hv' hc' hr'
    refine ⟨?_, ?_, ?_, b1⟩
    · rw [hsplit, ha, lepton_task_loop_append]
      simp only [lepton_task_loop, e1]
    · rw [hsplit, ha, lepton_task_loop_append]
      simp only [lepton_task_loop, resyncPauses_append, hp, e1, resyncPauses_vsyncWait]
      simp [resyncPauses, isResyncPause]
    · rw [hsplit, ha, transitionsInto_states_append]
      simp only [lepton_task_states, transitionsInto, b9, b1, e1]
      simp [STATE_RUN, STATE_RE_INIT]

/-- Witness of `c18_fault_limit_tolerated`: 396 incomplete attempts. -/
theorem c18_fault_limit_tolerated_witness :
    (lepton_task_loop lepRunZero (List.replicate 396 incompleteAttempt)).1.task_state
      = STATE_RE_INIT ∧
    resyncPauses (lepton_task_loop lepRunZero (List.replicate 396 incompleteAttempt)).2
      = 11 ∧
    transitionsInto STATE_RE_INIT
      (lepton_task_states lepRunZero (List.replicate 396 incompleteAttempt)) = 1 ∧
    (lepton_task_loop lepRunZero
      ((List.replicate 396 incompleteAttempt).take 395)).1.task_state = STATE_RUN :=
  (c18_fault_limit_tolerated lepRunZero (List.replicate 396 incompleteAttempt)
    rfl rfl rfl rfl
    (by intro i hi; rw [List.eq_of_mem_replicate hi]; rfl)).2
    (by rw [List.length_replicate]; decide)

/-- C20: with `LEP_NUM_PIXELS` positive, in one iteration of `send_task`: a
flag already recorded is not cleared by the poll; `got_image_0`, once
recorded, is served in this very iteration; `got_image_1`, once recorded, is
either still set afterwards or slot 1 was copied in this iteration. An
iteration that clears the flag of slot `n` (slot 0 when `got_image_0` is
recorded at the poll, else slot 1 when `got_image_1` is) consists of the poll,
take, `memcpy` of `LEP_NUM_PIXELS*2` bytes and give for slot `n`, exactly one
call of `send_response` for `LEP_NUM_PIXELS*2` bytes on the scratch buffer
holding the image of slot `n`, and the sleep. Over any number of iterations a
recorded flag is still set or its slot has been copied. -/
theorem c20_no_notification_lost (P : Nat) (hP : 0 < P) (m : SendState) (i : SendInput) :
    (m.got_image_0 = true → slotsCopied (send_task_step P m i).2 = [0]) ∧
    (m.got_image_1 = true →
      (send_task_step P m i).1.got_image_1 = true ∨
      slotsCopied (send_task_step P m i).2 = [1]) ∧
    ((handle_notifications m i.notify).1.got_image_0 = true →
      (∃ m', (send_task_step P m i).2 =
          [Action.xTaskNotifyWait, Action.xSemaphoreTake 0, Action.memcpy 0 (P * 2),
           Action.xSemaphoreGive 0]
            ++ (send_response m' i.net (P * 2)).2
            ++ [Action.vTaskDelay RSP_TASK_SLEEP_MSEC] ∧
        m'.send_img_buffer = m.lep_buffer_0) ∧
      deliveryAttempts (send_task_step P m i).2 = 1 ∧
      (send_task_step P m i).1.send_img_buffer = m.lep_buffer_0 ∧
      (send_task_step P m i).1.got_image_0 = false ∧
      (send_task_step P m i).1.got_image_1
        = (handle_notifications m i.notify).1.got_image_1) ∧
    ((handle_notifications m i.notify).1.got_image_0 = false →
      (handle_notifications m i.notify).1.got_image_1 = true →
      (∃ m', (send_task_step P m i).2 =
          [Action.xTaskNotifyWait, Action.xSemaphoreTake 1, Action.memcpy 1 (P * 2),
           Action.xSemaphoreGive 1]
            ++ (send_response m' i.net (P * 2)).2
            ++ [Action.vTaskDelay RSP_TASK_SLEEP_MSEC] ∧
        m'.send_img_buffer = m.lep_buffer_1) ∧
      deliveryAttempts (send_task_step P m i).2 = 1 ∧
      (send_task_step P m i).1.send_img_buffer = m.lep_buffer_1 ∧
      (send_task_step P m i).1.got_image_1 = false) ∧
    ((handle_notifications m i.notify).1.got_image_0 = false →
      (handle_notifications m i.notify).1.got_image_1 = false →
      slotsCopied (send_task_step P m i).2 = [] ∧
      deliveryAttempts (send_task_step P m i).2 = 0) ∧
    (∀ inputs : List SendInput,
      (m.got_image_0 = true →
        (send_task_loop P m inputs).1.got_image_0 = true ∨
        (0 : Int) ∈ slotsCopied (send_task_loop P m inputs).2) ∧
      (m.got_image_1 = true →
        (send_task_loop P m inputs).1.got_image_1 = true ∨
        (1 : Int) ∈ slotsCopied (send_task_loop P m inputs).2)) := by
  obtain ⟨k0, k1⟩ := handle_notifications_keeps m i.notify
  obtain ⟨_, a2, _, _, _, a6⟩ := send_task_step_mem P m i
  have hda : ∀ (pre : List Action) (m' : SendState),
      deliveryAttempts pre = 0 →
      deliveryAttempts
        (pre ++ (send_response m' i.net (P * 2)).2
          ++ [Action.vTaskDelay RSP_TASK_SLEEP_MSEC]) = 1 := by
    intro pre m' hpre
    have h1 := deliveryAttempts_send_response m' i.net (P * 2)
    simp only [deliveryAttempts] at hpre h1 ⊢
    simp [List.countP_append, hpre, h1]
  refine ⟨?_, ?_, ?_, ?_, ?_, fun inputs => send_loop_flag_kept P inputs m⟩
  · intro h
    rw [a6, if_pos (k0 h)]
  · intro h
    have h1 := k1 h
    cases h0 : (handle_notifications m i.notify).1.got_image_0
    · right
      rw [a6, h0, h1]
      simp
    · left
      rw [a2, h0, h1]
      rfl
  · intro h0
    obtain ⟨⟨m', t1, t2⟩, _, s3, s4, s5⟩ := send_task_step_slot0 P hP m i h0
    refine ⟨⟨m', t1, t2⟩, ?_, s5, s3, s4⟩
    rw [t1]
    exact hda _ m' rfl
  · intro h0 h1
    obtain ⟨⟨m', t1, t2⟩, _, _, s4, s5⟩ := send_task_step_slot1 P hP m i h0 h1
    refine ⟨⟨m', t1, t2⟩, ?_, s5, s4⟩
    rw [t1]
    exact hda _ m' rfl
  · intro h0 h1
    obtain ⟨hn, _⟩ := handle_notifications_frame m i.notify
    constructor
    · rw [a6, h0, h1]
      simp
    · simp [send_task_step, h0, h1, hn, deliveryAttempts]

/-- Witness of `c20_no_notification_lost`: both flags are pending; slot 0 is
served, `got_image_1` stays recorded, and after a second iteration with
nothing new pending slot 1 has been copied as well. -/
theorem c20_no_notification_lost_witness :
    deliveryAttempts (send_task_step 2 sendIdle bothPending).2 = 1 ∧
    (send_task_step 2 sendIdle bothPending).1.got_image_1 = true ∧
    ((send_task_loop 2 (send_task_step 2 sendIdle bothPending).1
        [{ notify := none, net := netConnectFails }]).1.got_image_1 = true ∨
      (1 : Int) ∈ slotsCopied (send_task_loop 2 (send_task_step 2 sendIdle bothPending).1
        [{ notify := none, net := netConnectFails }]).2) :=
  ⟨((c20_no_notification_lost 2 (by decide) sendIdle bothPending).2.2.1 rfl).2.1,
   by decide,
   ((c20_no_notification_lost 2 (by decide) (send_task_step 2 sendIdle bothPending).1
      bothPending).2.2.2.2.2 [{ notify := none, net := netConnectFails }]).2 (by decide)⟩

end Thermo
